import Mathlib

/-!
Slice view interaction and model display pipeline of 3D Slicer.

A shallow embedding of

* `Libs/MRML/DisplayableManager/vtkSliceViewInteractorStyle.cxx`
* `Libs/MRML/Core/vtkMRMLModelDisplayNode.cxx`

Conventions of the embedding.

* C++ `int` values are `Int`.  Signed overflow is undefined behaviour in C++,
  so the embedding describes the executions in which no `int` operation
  overflows.
* C++ `double` values are exact rationals `ℚ`: no rounding, no infinities and
  no NaN.  Every division whose divisor may be zero is recorded in the call
  log, so that statements can say when a division takes place.
* Objects reached through pointers (the interactor, its render window, the
  slice logic, its nodes and scene) are components of one `World` value; the
  handlers dereference these pointers unconditionally, so the embedding
  describes a style which has been given an interactor and a slice logic.
* Calls whose implementation lies outside the two files are appended to a call
  log in program order.
-/

namespace Slicer

/-- An `int[2]` such as an event position or a window size: `x` is element 0
and `y` is element 1. -/
structure Int2 where
  x : Int
  y : Int
deriving DecidableEq, Repr

/-- A `double[3]`: `x`, `y`, `z` are elements 0, 1, 2. -/
structure Double3 where
  x : ℚ
  y : ℚ
  z : ℚ
deriving DecidableEq, Repr

/-- A `double[4]` homogeneous point. -/
abbrev Double4 := Fin 4 → ℚ

/-- The elements of a `vtkMatrix4x4`, row index first. -/
abbrev vtkMatrix4x4 := Matrix (Fin 4) (Fin 4) ℚ

/-- The matrix made by `vtkMatrix4x4::New()`: the identity. -/
def vtkMatrix4x4.New : vtkMatrix4x4 :=
  fun i j => if i = j then 1 else 0

/-- Method `vtkMatrix4x4::MultiplyPoint(in, out)` of the VTK library:
`out[i] = in[0]*M[i][0] + in[1]*M[i][1] + in[2]*M[i][2] + in[3]*M[i][3]`. -/
def vtkMatrix4x4.MultiplyPoint (m : vtkMatrix4x4) (p : Double4) : Double4 :=
  fun i => p 0 * m i 0 + p 1 * m i 1 + p 2 * m i 2 + p 3 * m i 3

/-- The enumerators `None`, `Translate`, `Zoom`, `Blend` of the style's action
state.  The header declaring them is not part of the sources at hand, so their
values are parameters.  `Translate`, `Zoom` and `Blend` are the case labels of
the `switch` in `OnMouseMove`, which C++ requires to be pairwise distinct. -/
structure ActionStateEnum where
  None : Int
  Translate : Int
  Zoom : Int
  Blend : Int
  labels_distinct : Translate ≠ Zoom ∧ Translate ≠ Blend ∧ Zoom ≠ Blend

/-- One assignment of values to the enumerators (declaration order with an
unused state between `Zoom` and `Blend`). -/
def sampleEnum : ActionStateEnum :=
  ⟨0, 1, 2, 4, by decide⟩

/-- The interaction flags of `vtkMRMLSliceNode` passed to
`StartSliceNodeInteraction`. -/
inductive InteractionFlag where
  | SliceToRASFlag
  | FieldOfViewFlag
  | ResetFieldOfViewFlag
deriving DecidableEq, Repr

/-- Entries of the call log. -/
inductive Call where
  /-- Call of `SliceLogic->GetMRMLScene()->SaveStateForUndo(sliceNode)`. -/
  | SaveStateForUndo
  /-- Call of `SliceLogic->StartSliceNodeInteraction(flag)`. -/
  | StartSliceNodeInteraction (flag : InteractionFlag)
  /-- Call of `SliceLogic->EndSliceNodeInteraction()`. -/
  | EndSliceNodeInteraction
  /-- Call of `sliceNode->JumpAllSlices(r, a, s)`. -/
  | JumpAllSlices (r a s : ℚ)
  /-- Call of `GetInteractor()->FindPokedRenderer(x, y)`. -/
  | FindPokedRenderer (x y : Int)
  /-- Call of `this->Superclass::handler()`. -/
  | Superclass (handler : String)
  /-- A floating-point division `num / den`. -/
  | Divide (num den : ℚ)
deriving DecidableEq, Repr

/-- The part of `vtkMRMLSliceNode` read or written by the interactor style.
The setters of the node store their arguments in the field of the same
name. -/
structure vtkMRMLSliceNode where
  FieldOfView : Double3
  SliceOrigin : Double3
  XYToRAS : vtkMatrix4x4
  SliceToRAS : vtkMatrix4x4
  SliceSpacingMode : Int
  PrescribedSliceSpacing : Double3
  LayoutGridRows : Int
  LayoutGridColumns : Int
  SliceVisible : Int

/-- The part of `vtkMRMLSliceCompositeNode` read or written by the interactor
style.  A volume ID is a `char*`; the null pointer is `none`. -/
structure vtkMRMLSliceCompositeNode where
  ForegroundOpacity : ℚ
  LabelOpacity : ℚ
  ForegroundVolumeID : Option String
  LabelVolumeID : Option String

/-- The part of `vtkMRMLSliceLogic` used by the interactor style.
`GetSliceOffset` and `SetSliceOffset` read and write `SliceOffset`, and
`GetLowestVolumeSliceSpacing` returns `LowestVolumeSliceSpacing`. -/
structure vtkMRMLSliceLogic where
  SliceNode : vtkMRMLSliceNode
  SliceCompositeNode : vtkMRMLSliceCompositeNode
  SliceOffset : ℚ
  LowestVolumeSliceSpacing : Double3

/-- The part of `vtkRenderWindowInteractor` used by the interactor style.
`Size` is `GetRenderWindow()->GetSize()` and `PokedRendererOrigin x y` is
`FindPokedRenderer(x, y)->GetOrigin()`. -/
structure vtkRenderWindowInteractor where
  EventPosition : Int2
  ShiftKey : Int
  ControlKey : Int
  KeySym : String
  Size : Int2
  PokedRendererOrigin : Int → Int → Int2

/-- The data members of `vtkSliceViewInteractorStyle` (the pointer members
`Interactor` and `SliceLogic` are the components of `World`). -/
structure vtkSliceViewInteractorStyle where
  ActionState : Int
  ActionStartWindow : Int2
  ActionStartFOV : Double3
  ActionStartRAS : Double4
  ActionStartSliceToRAS : vtkMatrix4x4
  ActionStartXYToRAS : vtkMatrix4x4
  ScratchMatrix : vtkMatrix4x4
  ActionStartForegroundOpacity : ℚ
  ActionStartLabelOpacity : ℚ

/-- The style together with the objects it points to and the call log. -/
structure World where
  Style : vtkSliceViewInteractorStyle
  Interactor : vtkRenderWindowInteractor
  SliceLogic : vtkMRMLSliceLogic
  Calls : List Call

namespace vtkSliceViewInteractorStyle

/-- The constructor.  `raw` holds the contents of the members before
construction; the constructor leaves `ActionStartWindow`, `ActionStartFOV` and
`ActionStartRAS` as they are. -/
def construct (E : ActionStateEnum) (raw : vtkSliceViewInteractorStyle) :
    vtkSliceViewInteractorStyle :=
  { raw with
    ActionState := E.None
    ActionStartSliceToRAS := vtkMatrix4x4.New
    ActionStartXYToRAS := vtkMatrix4x4.New
    ScratchMatrix := vtkMatrix4x4.New
    ActionStartForegroundOpacity := 0
    ActionStartLabelOpacity := 0 }

/-- Appends one entry to the call log. -/
def call (c : Call) (w : World) : World :=
  { w with Calls := w.Calls ++ [c] }

/-- Setter `vtkSetMacro(ActionState, int)`. -/
def SetActionState (s : Int) (w : World) : World :=
  { w with Style := { w.Style with ActionState := s } }

/-- Setter `vtkSetVector2Macro(ActionStartWindow, int)`. -/
def SetActionStartWindow (p : Int2) (w : World) : World :=
  { w with Style := { w.Style with ActionStartWindow := p } }

/-- Setter `vtkSetVector3Macro(ActionStartFOV, double)`. -/
def SetActionStartFOV (v : Double3) (w : World) : World :=
  { w with Style := { w.Style with ActionStartFOV := v } }

/-- Setter `vtkSetVector4Macro(ActionStartRAS, double)`. -/
def SetActionStartRAS (v : Double4) (w : World) : World :=
  { w with Style := { w.Style with ActionStartRAS := v } }

/-- Setter `vtkSetMacro(ActionStartForegroundOpacity, double)`. -/
def SetActionStartForegroundOpacity (v : ℚ) (w : World) : World :=
  { w with Style := { w.Style with ActionStartForegroundOpacity := v } }

/-- Setter `vtkSetMacro(ActionStartLabelOpacity, double)`. -/
def SetActionStartLabelOpacity (v : ℚ) (w : World) : World :=
  { w with Style := { w.Style with ActionStartLabelOpacity := v } }

/-- Method `GetEventRAS(ras)`: returns `ras` and the world after the call. -/
def GetEventRAS (w : World) : Double4 × World :=
  let windowX := w.Interactor.EventPosition.x
  let windowY := w.Interactor.EventPosition.y
  let w1 := call (Call.FindPokedRenderer windowX windowY) w
  let origin := w.Interactor.PokedRendererOrigin windowX windowY
  let localXY : Double4 :=
    ![((windowX - origin.x : Int) : ℚ), ((windowY - origin.y : Int) : ℚ), 0, 1]
  (w1.SliceLogic.SliceNode.XYToRAS.MultiplyPoint localXY, w1)

/-- Method `StartTranslate()`. -/
def StartTranslate (E : ActionStateEnum) (w : World) : World :=
  let w1 := call Call.SaveStateForUndo w
  let w2 := call (Call.StartSliceNodeInteraction InteractionFlag.SliceToRASFlag) w1
  let w3 := SetActionState E.Translate w2
  let w4 : World :=
    { w3 with Style := { w3.Style with
        ActionStartSliceToRAS := w3.SliceLogic.SliceNode.SliceToRAS } }
  let w5 : World :=
    { w4 with Style := { w4.Style with
        ActionStartXYToRAS := w4.SliceLogic.SliceNode.XYToRAS } }
  let r := GetEventRAS w5
  SetActionStartRAS r.1 r.2

/-- Method `EndTranslate()`. -/
def EndTranslate (E : ActionStateEnum) (w : World) : World :=
  call Call.EndSliceNodeInteraction (SetActionState E.None w)

/-- Method `StartBlend()`. -/
def StartBlend (E : ActionStateEnum) (w : World) : World :=
  let w1 := SetActionState E.Blend w
  let w2 := SetActionStartForegroundOpacity w1.SliceLogic.SliceCompositeNode.ForegroundOpacity w1
  SetActionStartLabelOpacity w2.SliceLogic.SliceCompositeNode.LabelOpacity w2

/-- Method `EndBlend()`. -/
def EndBlend (E : ActionStateEnum) (w : World) : World :=
  let w1 := SetActionState E.None w
  let w2 := SetActionStartForegroundOpacity w1.SliceLogic.SliceCompositeNode.ForegroundOpacity w1
  SetActionStartLabelOpacity w2.SliceLogic.SliceCompositeNode.LabelOpacity w2

/-- Method `OnRightButtonDown()`. -/
def OnRightButtonDown (E : ActionStateEnum) (w : World) : World :=
  let w1 := call Call.SaveStateForUndo w
  let w2 := SetActionState E.Zoom w1
  let w3 := call (Call.StartSliceNodeInteraction InteractionFlag.FieldOfViewFlag) w2
  let w4 := SetActionStartFOV w3.SliceLogic.SliceNode.FieldOfView w3
  SetActionStartWindow w4.Interactor.EventPosition w4

/-- Method `OnRightButtonUp()`. -/
def OnRightButtonUp (E : ActionStateEnum) (w : World) : World :=
  call Call.EndSliceNodeInteraction (SetActionState E.None w)

/-- Method `OnMiddleButtonDown()`. -/
def OnMiddleButtonDown (E : ActionStateEnum) (w : World) : World :=
  let w1 := StartTranslate E w
  SetActionStartWindow w1.Interactor.EventPosition w1

/-- Method `OnMiddleButtonUp()`. -/
def OnMiddleButtonUp (E : ActionStateEnum) (w : World) : World :=
  EndTranslate E w

/-- Method `OnLeftButtonDown()`. -/
def OnLeftButtonDown (E : ActionStateEnum) (w : World) : World :=
  let w1 :=
    if w.Interactor.ShiftKey ≠ 0 then StartTranslate E w
    else if w.Interactor.ControlKey ≠ 0 then StartBlend E w
    else w
  let w2 := SetActionStartWindow w1.Interactor.EventPosition w1
  call (Call.Superclass "OnLeftButtonDown") w2

/-- Method `OnLeftButtonUp()`. -/
def OnLeftButtonUp (E : ActionStateEnum) (w : World) : World :=
  let w1 :=
    if w.Style.ActionState = E.Translate then EndTranslate E w
    else if w.Style.ActionState = E.Blend then EndBlend E w
    else w
  call (Call.Superclass "OnLeftButtonUp") w1

/-- Setter `vtkMRMLSliceNode::SetSliceOrigin(x, y, z)`. -/
def SetSliceOrigin (x y z : ℚ) (w : World) : World :=
  { w with SliceLogic := { w.SliceLogic with
      SliceNode := { w.SliceLogic.SliceNode with SliceOrigin := ⟨x, y, z⟩ } } }

/-- Setter `vtkMRMLSliceNode::SetFieldOfView(x, y, z)`. -/
def SetFieldOfView (x y z : ℚ) (w : World) : World :=
  { w with SliceLogic := { w.SliceLogic with
      SliceNode := { w.SliceLogic.SliceNode with FieldOfView := ⟨x, y, z⟩ } } }

/-- Setter `vtkMRMLSliceCompositeNode::SetForegroundOpacity(v)`. -/
def SetForegroundOpacity (v : ℚ) (w : World) : World :=
  { w with SliceLogic := { w.SliceLogic with
      SliceCompositeNode := { w.SliceLogic.SliceCompositeNode with ForegroundOpacity := v } } }

/-- Setter `vtkMRMLSliceCompositeNode::SetLabelOpacity(v)`. -/
def SetLabelOpacity (v : ℚ) (w : World) : World :=
  { w with SliceLogic := { w.SliceLogic with
      SliceCompositeNode := { w.SliceLogic.SliceCompositeNode with LabelOpacity := v } } }

/-- Setter `vtkMRMLSliceLogic::SetSliceOffset(offset)`. -/
def SetSliceOffset (offset : ℚ) (w : World) : World :=
  { w with SliceLogic := { w.SliceLogic with SliceOffset := offset } }

/-- Method `OnMouseMove()`.  The `switch` on the action state is a chain of
tests against its case labels, which are pairwise distinct. -/
def OnMouseMove (E : ActionStateEnum) (w : World) : World :=
  let windowX := w.Interactor.EventPosition.x
  let windowY := w.Interactor.EventPosition.y
  let windowW := w.Interactor.Size.x
  let windowH := w.Interactor.Size.y
  let windowMinSize := min windowW windowH
  if w.Style.ActionState = E.Translate then
    SetSliceOrigin ((w.Style.ActionStartWindow.x - windowX : Int) : ℚ)
      ((w.Style.ActionStartWindow.y - windowY : Int) : ℚ) 0 w
  else if w.Style.ActionState = E.Zoom then
    let deltaY : Int := windowY - w.Style.ActionStartWindow.y
    let w1 := call (Call.Divide ((windowH + deltaY : Int) : ℚ) (1 * (windowH : ℚ))) w
    let percent : ℚ := ((windowH + deltaY : Int) : ℚ) / (1 * (windowH : ℚ))
    if percent > 0 then
      let newFOVx := w1.Style.ActionStartFOV.x * percent
      let newFOVy := w1.Style.ActionStartFOV.y * percent
      let newFOVz := w1.Style.ActionStartFOV.z
      SetFieldOfView newFOVx newFOVy newFOVz w1
    else w1
  else if w.Style.ActionState = E.Blend then
    let deltaY : Int := windowY - w.Style.ActionStartWindow.y
    let w1 := call (Call.Divide (2 * (deltaY : ℚ)) (windowMinSize : ℚ)) w
    let offsetY : ℚ := (2 * (deltaY : ℚ)) / (windowMinSize : ℚ)
    let newForegroundOpacity := min (max (w1.Style.ActionStartForegroundOpacity + offsetY) 0) 1
    let w2 :=
      if w1.SliceLogic.SliceCompositeNode.ForegroundVolumeID ≠ none then
        SetForegroundOpacity newForegroundOpacity w1
      else w1
    let deltaX : Int := windowX - w2.Style.ActionStartWindow.x
    let w3 := call (Call.Divide (2 * (deltaX : ℚ)) (windowMinSize : ℚ)) w2
    let offsetX : ℚ := (2 * (deltaX : ℚ)) / (windowMinSize : ℚ)
    let newLabelOpacity := min (max (w3.Style.ActionStartLabelOpacity + offsetX) 0) 1
    if w3.SliceLogic.SliceCompositeNode.LabelVolumeID ≠ none then
      SetLabelOpacity newLabelOpacity w3
    else w3
  else
    if w.Interactor.ShiftKey ≠ 0 then
      let r := GetEventRAS w
      call (Call.JumpAllSlices (r.1 0) (r.1 1) (r.1 2)) r.2
    else
      call (Call.Superclass "OnMouseMove") w

/-- Method `GetSliceSpacing()`.  The enumerator
`vtkMRMLSliceNode::PrescribedSliceSpacingMode` is declared outside the sources
at hand and is a parameter. -/
def GetSliceSpacing (PrescribedSliceSpacingMode : Int) (w : World) : ℚ :=
  if w.SliceLogic.SliceNode.SliceSpacingMode = PrescribedSliceSpacingMode then
    w.SliceLogic.SliceNode.PrescribedSliceSpacing.z
  else
    w.SliceLogic.LowestVolumeSliceSpacing.z

/-- Method `MoveSlice(delta)`. -/
def MoveSlice (delta : ℚ) (w : World) : World :=
  let offset := w.SliceLogic.SliceOffset
  let w1 := call (Call.StartSliceNodeInteraction InteractionFlag.SliceToRASFlag) w
  let w2 := SetSliceOffset (offset + delta) w1
  call Call.EndSliceNodeInteraction w2

/-- Method `IncrementSlice()`. -/
def IncrementSlice (PrescribedSliceSpacingMode : Int) (w : World) : World :=
  MoveSlice (GetSliceSpacing PrescribedSliceSpacingMode w) w

/-- Method `DecrementSlice()`. -/
def DecrementSlice (PrescribedSliceSpacingMode : Int) (w : World) : World :=
  MoveSlice (-1 * GetSliceSpacing PrescribedSliceSpacingMode w) w

/-- Method `OnKeyPress()`. -/
def OnKeyPress (PrescribedSliceSpacingMode : Int) (w : World) : World :=
  let key := w.Interactor.KeySym
  if key = "Right" ∨ key = "Up" then
    IncrementSlice PrescribedSliceSpacingMode w
  else if key = "Left" ∨ key = "Down" then
    DecrementSlice PrescribedSliceSpacingMode w
  else
    call (Call.Superclass "OnKeyPress") w

/-- Method `GetEventXYZ(xyz)`: returns `xyz` and the world after the call. -/
def GetEventXYZ (w : World) : Double4 × World :=
  let windowX := w.Interactor.EventPosition.x
  let windowY := w.Interactor.EventPosition.y
  let windowW := w.Interactor.Size.x
  let windowH := w.Interactor.Size.y
  let numRows := w.SliceLogic.SliceNode.LayoutGridRows
  let numCols := w.SliceLogic.SliceNode.LayoutGridColumns
  if windowW = 0 ∨ windowH = 0 then
    (![0, 0, 0, 1], w)
  else
    let w1 := call (Call.FindPokedRenderer windowX windowY) w
    let origin := w.Interactor.PokedRendererOrigin windowX windowY
    let xyz0 : ℚ := ((windowX - origin.x : Int) : ℚ)
    let xyz1 : ℚ := ((windowY - origin.y : Int) : ℚ)
    let w2 := call (Call.Divide (windowX : ℚ) (1 * (windowW : ℚ))) w1
    let tx : ℚ := (windowX : ℚ) / (1 * (windowW : ℚ))
    let w3 := call (Call.Divide ((windowH - windowY : Int) : ℚ) (1 * (windowH : ℚ))) w2
    let ty : ℚ := ((windowH - windowY : Int) : ℚ) / (1 * (windowH : ℚ))
    let xyz2 : ℚ := ((⌊ty * (numRows : ℚ)⌋ : Int) : ℚ) * (numCols : ℚ)
      + ((⌊tx * (numCols : ℚ)⌋ : Int) : ℚ)
    (![xyz0, xyz1, xyz2, 1], w3)

end vtkSliceViewInteractorStyle

/-- A `vtkPolyData` as seen by the model display node: `ScalarRange` is what
`GetScalarRange()` returns once the data is up to date. -/
structure vtkPolyData where
  ScalarRange : ℚ × ℚ
deriving DecidableEq, Repr

/-- The arguments of the last `vtkAssignAttribute::Assign(name, type, location)`. -/
structure AssignSettings where
  FieldName : Option String
  AttributeType : Int
  AttributeLocation : Int
deriving DecidableEq, Repr

/-- The two filters of the node whose output port `GetOutputPolyDataConnection`
may return. -/
inductive OutputPort where
  | AssignAttribute
  | PassThrough
deriving DecidableEq, Repr

/-- What the model display node uses of the VTK library: the constants
`vtkCommand::ModifiedEvent` and `vtkDataSetAttributes::SCALARS`, and
`OutputDataObject port settings input`, the output data object of the filter
behind `port` cast to `vtkPolyData` (`none` for a null pointer), for the given
`Assign` settings and input poly data. -/
structure VTK where
  ModifiedEvent : Nat
  SCALARS : Int
  OutputDataObject : OutputPort → AssignSettings → vtkPolyData → Option vtkPolyData

/-- Entries of the call log of the model display node. -/
inductive NodeCall where
  | SuperclassProcessMRMLEvents (event : Nat)
  | UpdatePolyDataPipeline
  | Update (port : OutputPort)
deriving DecidableEq, Repr

/-- The members of `vtkMRMLModelDisplayNode` and of its superclasses used by
the pipeline code.  `InputPolyData` is the poly data given to both filters by
`SetInputToPolyDataPipeline` (`none` when there is no input). -/
structure vtkMRMLModelDisplayNode where
  ActiveScalarName : Option String
  ActiveAttributeLocation : Int
  AutoScalarRange : Int
  ScalarRange : ℚ × ℚ
  InputPolyData : Option vtkPolyData
  AssignAttribute : AssignSettings
  Calls : List NodeCall

namespace vtkMRMLModelDisplayNode

/-- Method `GetInputPolyData()`. -/
def GetInputPolyData (n : vtkMRMLModelDisplayNode) : Option vtkPolyData :=
  n.InputPolyData

/-- Method `GetOutputPolyDataConnection()`; an output port is never null. -/
def GetOutputPolyDataConnection (n : vtkMRMLModelDisplayNode) : Option OutputPort :=
  if n.ActiveScalarName ≠ none then some OutputPort.AssignAttribute
  else some OutputPort.PassThrough

/-- Method `GetOutputPolyData()`. -/
def GetOutputPolyData (vtk : VTK) (n : vtkMRMLModelDisplayNode) : Option vtkPolyData :=
  match GetOutputPolyDataConnection n with
  | none => none
  | some port =>
    match GetInputPolyData n with
    | none => none
    | some input => vtk.OutputDataObject port n.AssignAttribute input

/-- Method `UpdatePolyDataPipeline()`. -/
def UpdatePolyDataPipeline (vtk : VTK) (n : vtkMRMLModelDisplayNode) :
    vtkMRMLModelDisplayNode :=
  let n0 := { n with Calls := n.Calls ++ [NodeCall.UpdatePolyDataPipeline] }
  let n1 := { n0 with AssignAttribute :=
    ⟨n0.ActiveScalarName,
     if n0.ActiveScalarName ≠ none then vtk.SCALARS else -1,
     n0.ActiveAttributeLocation⟩ }
  if n1.AutoScalarRange ≠ 0 ∧ GetOutputPolyData vtk n1 ≠ none then
    let n2 :=
      match GetOutputPolyDataConnection n1 with
      | some port => { n1 with Calls := n1.Calls ++ [NodeCall.Update port] }
      | none => n1
    match GetOutputPolyData vtk n2 with
    | some output => { n2 with ScalarRange := output.ScalarRange }
    | none => n2
  else n1

/-- Method `ProcessMRMLEvents(caller, event, callData)`. -/
def ProcessMRMLEvents (vtk : VTK) (n : vtkMRMLModelDisplayNode) (event : Nat) :
    vtkMRMLModelDisplayNode :=
  let n1 := { n with Calls := n.Calls ++ [NodeCall.SuperclassProcessMRMLEvents event] }
  if event = vtk.ModifiedEvent then UpdatePolyDataPipeline vtk n1
  else n1

end vtkMRMLModelDisplayNode

/-- A slice node used to evaluate the handlers on concrete input. -/
def sampleSliceNode : vtkMRMLSliceNode :=
  { FieldOfView := ⟨250, 200, 1⟩
    SliceOrigin := ⟨0, 0, 0⟩
    XYToRAS := vtkMatrix4x4.New
    SliceToRAS := vtkMatrix4x4.New
    SliceSpacingMode := 0
    PrescribedSliceSpacing := ⟨1, 1, 3⟩
    LayoutGridRows := 1
    LayoutGridColumns := 1
    SliceVisible := 0 }

/-- A composite node with a foreground volume and without a label volume. -/
def sampleCompositeNode : vtkMRMLSliceCompositeNode :=
  { ForegroundOpacity := 1 / 2
    LabelOpacity := 1 / 4
    ForegroundVolumeID := some "vtkMRMLScalarVolumeNode1"
    LabelVolumeID := none }

/-- An interactor with a 400 x 200 window, the event at (30, 70), no modifier
key down, and a single renderer whose origin is (10, 20). -/
def sampleInteractor : vtkRenderWindowInteractor :=
  { EventPosition := ⟨30, 70⟩
    ShiftKey := 0
    ControlKey := 0
    KeySym := "Up"
    Size := ⟨400, 200⟩
    PokedRendererOrigin := fun _ _ => ⟨10, 20⟩ }

/-- A world in action state `s` whose recorded start position is (20, 20). -/
def sampleWorld (s : Int) : World :=
  { Style :=
      { ActionState := s
        ActionStartWindow := ⟨20, 20⟩
        ActionStartFOV := ⟨250, 200, 1⟩
        ActionStartRAS := ![0, 0, 0, 1]
        ActionStartSliceToRAS := vtkMatrix4x4.New
        ActionStartXYToRAS := vtkMatrix4x4.New
        ScratchMatrix := vtkMatrix4x4.New
        ActionStartForegroundOpacity := 1 / 2
        ActionStartLabelOpacity := 1 / 4 }
    Interactor := sampleInteractor
    SliceLogic :=
      { SliceNode := sampleSliceNode
        SliceCompositeNode := sampleCompositeNode
        SliceOffset := 10
        LowestVolumeSliceSpacing := ⟨1, 1, 2⟩ }
    Calls := [] }

/-- The sample world with a window of width 0. -/
def degenerateWorld : World :=
  { sampleWorld 0 with Interactor := { sampleInteractor with Size := ⟨0, 200⟩ } }

/-- The sample world with the key sym `key`. -/
def keyWorld (key : String) : World :=
  { sampleWorld 0 with Interactor := { sampleInteractor with KeySym := key } }

/-- A VTK library whose filters pass their input through. -/
def sampleVTK : VTK :=
  { ModifiedEvent := 33
    SCALARS := 0
    OutputDataObject := fun _ _ input => some input }

/-- A model display node with input poly data and automatic scalar range. -/
def sampleModelDisplayNode : vtkMRMLModelDisplayNode :=
  { ActiveScalarName := some "Curvature"
    ActiveAttributeLocation := 0
    AutoScalarRange := 1
    ScalarRange := (0, 100)
    InputPolyData := some ⟨(-1, 1)⟩
    AssignAttribute := ⟨none, -1, 0⟩
    Calls := [] }

/-- The sample model display node without input poly data. -/
def sampleNodeWithoutInput : vtkMRMLModelDisplayNode :=
  { sampleModelDisplayNode with InputPolyData := none }

/-- The command options read by `qSlicerApplication::handleCommandLineArguments`. -/
structure qSlicerCommandOptions where
  noMainWindow : Bool
  disableMessageHandlers : Bool
  disableToolTips : Bool
deriving DecidableEq, Repr

/-- Entries of the call log of the application. -/
inductive ApplicationCall where
  | disableAllMsgHandler
  | SuperclassHandleCommandLineArguments
  | setToolTipsTrapped (trapped : Bool)
deriving DecidableEq, Repr

/-- The part of `qSlicerApplication` used by `handleCommandLineArguments`:
the command options, the handlers registered with the error log model, each
with its enabled flag, and the trapped flag of the tool tip trapper. -/
structure qSlicerApplication where
  commandOptions : qSlicerCommandOptions
  MsgHandlerEnabled : List (String × Bool)
  ToolTipsTrapped : Bool
  Calls : List ApplicationCall

namespace qSlicerApplication

/-- Method `ctkErrorLogModel::disableAllMsgHandler()` of the CTK library: every
registered handler is disabled. -/
def disableAllMsgHandler (app : qSlicerApplication) : qSlicerApplication :=
  { app with
    MsgHandlerEnabled := app.MsgHandlerEnabled.map (fun h => (h.1, false))
    Calls := app.Calls ++ [ApplicationCall.disableAllMsgHandler] }

/-- Method `setToolTipsEnabled(enable)`. -/
def setToolTipsEnabled (enable : Bool) (app : qSlicerApplication) : qSlicerApplication :=
  { app with
    ToolTipsTrapped := !enable
    Calls := app.Calls ++ [ApplicationCall.setToolTipsTrapped (!enable)] }

/-- Method `handleCommandLineArguments()`. -/
def handleCommandLineArguments (app : qSlicerApplication) : qSlicerApplication :=
  let options := app.commandOptions
  let app1 :=
    if options.noMainWindow || options.disableMessageHandlers then disableAllMsgHandler app
    else app
  let app2 : qSlicerApplication :=
    { app1 with Calls := app1.Calls ++ [ApplicationCall.SuperclassHandleCommandLineArguments] }
  setToolTipsEnabled (!options.disableToolTips) app2

end qSlicerApplication

/-- An application with two registered message handlers. -/
def sampleApplication (options : qSlicerCommandOptions) : qSlicerApplication :=
  { commandOptions := options
    MsgHandlerEnabled := [("Qt", true), ("VTK", true)]
    ToolTipsTrapped := false
    Calls := [] }

/-- Modelled from the spec: a node holding a hierarchical spatial transform.  A
node is either at the top of the transform hierarchy or has a parent transform
node; `Linear` tells whether the transform of the node itself is linear.  The
header `vtkMRMLTransformNode.h` declares `IsLinear` as pure virtual and
`IsTransformToWorldLinear` without a body; the implementation file is
missing. -/
inductive vtkMRMLTransformNode where
  | top (Linear : Bool)
  | child (Linear : Bool) (ParentTransformNode : vtkMRMLTransformNode)
deriving DecidableEq, Repr

namespace vtkMRMLTransformNode

/-- Modelled from the spec: `IsLinear()`, pure virtual in the header (its
implementations are missing), is 1 if the transform is linear, 0 otherwise
(header comment). -/
def IsLinear : vtkMRMLTransformNode → Int
  | top l => if l then 1 else 0
  | child l _ => if l then 1 else 0

/-- Modelled from the spec: the node itself followed by its ancestors up to the
top of the transform hierarchy. -/
def nodesToTop : vtkMRMLTransformNode → List vtkMRMLTransformNode
  | top l => [top l]
  | child l p => child l p :: nodesToTop p

/-- Modelled from the spec: `IsTransformToWorldLinear()`, declared in the header
without a body (the implementation file is missing), is 1 if all the transforms
to the top are linear, 0 otherwise (header comment): a node that is not linear
gives 0, a linear node at the top gives 1, and a linear node below the top
gives what its parent transform node gives. -/
def IsTransformToWorldLinear : vtkMRMLTransformNode → Int
  | top l => if IsLinear (top l) = 0 then 0 else 1
  | child l p => if IsLinear (child l p) = 0 then 0 else IsTransformToWorldLinear p

end vtkMRMLTransformNode

/-- What the application logic uses of the KWSys `SystemTools` library and of
the directory functions of the C library, over file system states `FS`.

* `FileExists fs path isFile` is `FileExists(path, isFile)`; the one-argument
  `FileExists(path)` is `FileExists fs path false`.
* `RemoveADirectory` and `MakeDirectory` return their success flag and the
  file system after the call.
* `opendir fs dir` is `none` when the directory cannot be opened and otherwise
  the names `readdir` returns, in order.

The three laws say that a directory exists, that a directory exists once
`MakeDirectory` has succeeded, and that `MakeDirectory` removes nothing. -/
structure SystemTools (FS : Type) where
  FileIsFullPath : String → Bool
  SplitPath : String → List String
  JoinPath : List String → String
  GetFilenameWithoutExtension : String → String
  GetFilenameExtension : String → String
  FileTypeText : Int
  DetectFileType : FS → String → Int
  opendir : FS → String → Option (List String)
  FileIsDirectory : FS → String → Bool
  FileExists : FS → String → Bool → Bool
  RemoveADirectory : FS → String → Bool × FS
  MakeDirectory : FS → String → Bool × FS
  FileExists_of_FileIsDirectory : ∀ fs path,
    FileIsDirectory fs path = true → FileExists fs path false = true
  FileExists_MakeDirectory : ∀ fs path,
    (MakeDirectory fs path).1 = true → FileExists (MakeDirectory fs path).2 path false = true
  FileExists_MakeDirectory_other : ∀ fs path other,
    FileExists fs other false = true → FileExists (MakeDirectory fs path).2 other false = true

/-- The part of a `vtkMRMLNode` and of its subclasses `vtkMRMLStorableNode` and
`vtkMRMLStorageNode` used by the application logic.  `IsStorableNode` is
`IsA("vtkMRMLStorableNode")`; `FileName` and `DefaultWriteFileExtension` are
members of a storage node; a null `char*` is `none`. -/
structure vtkMRMLNode where
  ID : Option String
  Name : String
  Attributes : List (String × String)
  IsStorableNode : Bool
  SaveWithScene : Bool
  StorageNodeID : Option String
  FileName : Option String
  DefaultWriteFileExtension : String
deriving DecidableEq, Repr

/-- The part of `vtkMRMLScene` used by the application logic.  `SetURL` and
`SetRootDirectory` store their argument, `GetURL` and `GetRootDirectory` return
what is stored. -/
structure vtkMRMLScene where
  URL : String
  RootDirectory : String
  Nodes : List vtkMRMLNode
deriving DecidableEq, Repr

/-- Calls made on a scene by `LoadDefaultParameterSets`. -/
inductive SceneCall where
  | SetURL (url : String)
  | Import
  | SetRootDirectory (dir : String)
deriving DecidableEq, Repr

/-- A scene together with the calls made on it. -/
structure SceneWorld where
  Scene : vtkMRMLScene
  Calls : List SceneCall

namespace vtkMRMLScene

/-- Method `vtkMRMLScene::SetURL(url)`. -/
def SetURL (url : String) (w : SceneWorld) : SceneWorld :=
  { Scene := { w.Scene with URL := url }, Calls := w.Calls ++ [SceneCall.SetURL url] }

/-- Method `vtkMRMLScene::SetRootDirectory(dir)`. -/
def SetRootDirectory (dir : String) (w : SceneWorld) : SceneWorld :=
  { Scene := { w.Scene with RootDirectory := dir },
    Calls := w.Calls ++ [SceneCall.SetRootDirectory dir] }

/-- Method `vtkMRMLScene::Import()`; what it does to the scene is the parameter
`importScene` (it reads the file named by the URL of the scene). -/
def Import (importScene : vtkMRMLScene → vtkMRMLScene) (w : SceneWorld) : SceneWorld :=
  { Scene := importScene w.Scene, Calls := w.Calls ++ [SceneCall.Import] }

end vtkMRMLScene

/-- The result of `LoadDefaultParameterSets`: the returned count and the scene
with the calls made on it. -/
structure LoadResult where
  Count : Int
  World : SceneWorld

namespace vtkMRMLApplicationLogic

/-- The body of the `readdir` loop of `LoadDefaultParameterSets`: the state is
`filesVector` and `filesToLoad`. -/
def checkDirectoryEntry {FS : Type} (K : SystemTools FS) (fs : FS)
    (st : List String × List String) (d_name : String) : List String × List String :=
  let filesVector := st.1 ++ [d_name]
  let fileToCheck := K.JoinPath filesVector
  let fileType := K.DetectFileType fs fileToCheck
  let filesToLoad := if fileType = K.FileTypeText then st.2 ++ [fileToCheck] else st.2
  (filesVector.dropLast, filesToLoad)

/-- The body of the loop over the directories of `LoadDefaultParameterSets`
(the branch for systems other than Windows): the state is `filesToLoad`. -/
def checkDirectory {FS : Type} (K : SystemTools FS) (fs : FS)
    (filesToLoad : List String) (dirString : String) : List String :=
  let filesVector := [dirString, "/"]
  match K.opendir fs dirString with
  | none => filesToLoad
  | some entries => (entries.foldl (checkDirectoryEntry K fs) (filesVector, filesToLoad)).2

/-- Method `LoadDefaultParameterSets(scene, directories)`. -/
def LoadDefaultParameterSets {FS : Type} (K : SystemTools FS)
    (importScene : FS → vtkMRMLScene → vtkMRMLScene) (fs : FS)
    (scene : SceneWorld) (directories : List String) : LoadResult :=
  let filesToLoad := directories.foldl (checkDirectory K fs) []
  let url := scene.Scene.URL
  let rootdir := scene.Scene.RootDirectory
  let scene1 := filesToLoad.foldl
    (fun w fit => vtkMRMLScene.Import (importScene fs) (vtkMRMLScene.SetURL fit w)) scene
  let scene2 := vtkMRMLScene.SetURL url scene1
  let scene3 := vtkMRMLScene.SetRootDirectory rootdir scene2
  { Count := (filesToLoad.length : Int), World := scene3 }

/-- The claim's description of the files of one directory: the joined paths of
the entries of a directory that can be opened whose detected type is text. -/
def textFilesOfDirectory {FS : Type} (K : SystemTools FS) (fs : FS) (dir : String) :
    List String :=
  match K.opendir fs dir with
  | none => []
  | some entries =>
    (entries.map (fun name => K.JoinPath [dir, "/", name])).filter
      (fun file => K.DetectFileType fs file = K.FileTypeText)

/-- The claim's description of the parameter sets to load: the text files of
all the directories, in the given order. -/
def parameterSetFiles {FS : Type} (K : SystemTools FS) (fs : FS) (directories : List String) :
    List String :=
  directories.flatMap (textFilesOfDirectory K fs)

end vtkMRMLApplicationLogic

/-- A `vtkImageData` passed as screen shot. -/
structure vtkImageData where
  Dimensions : Int × Int × Int
deriving DecidableEq, Repr

/-- Calls made by `SaveSceneToSlicerDataBundleDirectory` that change the file
system or copy a node, in program order. -/
inductive BundleCall where
  | RemoveADirectory (path : String)
  | MakeDirectory (path : String)
  | CopyNode (index : Nat)
  | WriteData (fileName : Option String)
  | Commit (url : String)
deriving DecidableEq, Repr

/-- What `SaveSceneToSlicerDataBundleDirectory` uses of the MRML classes whose
implementation lies outside the file, over file system states `FS`.

* `CopyNode scene node` is the node which `scene->CopyNode(node)` adds to
  `scene`, `none` for a null result.
* `GetStorageNode scene index` is the position in `scene` of the node returned
  by `GetStorageNode()` of the storable node at `index` of `scene`, `none` for
  null.
* `CreateDefaultStorageNode node` is the new storage node, `none` for null.
* `AddNode scene node` is `node` as `scene->AddNode(node)` stores it (with its
  ID in the scene).
* `SetDataDirectory dir snode` is the storage node after
  `snode->SetDataDirectory(dir)`.
* `WriteData fs snode node` is the file system after `snode->WriteData(node)`.
* `SceneViewNode scene name screenShot` is the new scene view node after
  `SetScene`, `SetName`, `SetSceneViewDescription`, the screen shot calls and
  `StoreScene`; `SceneViewStorageNode` is its default storage node.
* `Commit fs scene` is the file system and the scene after `scene->Commit()`. -/
structure MRMLCore (FS : Type) where
  CopyNode : vtkMRMLScene → vtkMRMLNode → Option vtkMRMLNode
  GetStorageNode : vtkMRMLScene → Nat → Option Nat
  CreateDefaultStorageNode : vtkMRMLNode → Option vtkMRMLNode
  AddNode : vtkMRMLScene → vtkMRMLNode → vtkMRMLNode
  SetDataDirectory : String → vtkMRMLNode → vtkMRMLNode
  WriteData : FS → vtkMRMLNode → vtkMRMLNode → FS
  GetUniqueNameByString : vtkMRMLScene → String → String
  SceneViewNode : vtkMRMLScene → String → Option vtkImageData → vtkMRMLNode
  SceneViewStorageNode : vtkMRMLNode → vtkMRMLNode
  Commit : FS → vtkMRMLScene → FS × vtkMRMLScene

/-- The application logic with what it points to: its MRML scene (`none` for a
null pointer), the file system and the call log. -/
structure vtkMRMLApplicationLogic (FS : Type) where
  MRMLScene : Option vtkMRMLScene
  FileSystem : FS
  Calls : List BundleCall

/-- The state of `SaveSceneToSlicerDataBundleDirectory` while it fills the new
scene `sdbScene`.  `OutOfFuel` is set when a search for a unique file name has
not ended within the given number of rounds; the rest of the function is then
not run. -/
structure BundleState (FS : Type) where
  Logic : vtkMRMLApplicationLogic FS
  sdbScene : vtkMRMLScene
  OutOfFuel : Bool

/-- The result of `SaveSceneToSlicerDataBundleDirectory`.  `Returned` is
`some none` for a returned `NULL`, `some (some url)` for a returned URL, and
`none` when the function has not returned within the given number of rounds of
its search loop. -/
structure BundleResult (FS : Type) where
  Returned : Option (Option String)
  Logic : vtkMRMLApplicationLogic FS

namespace vtkMRMLScene

/-- The scene made by `vtkMRMLScene::New()`. -/
def New : vtkMRMLScene :=
  { URL := "", RootDirectory := "", Nodes := [] }

/-- Replaces the node at `index` of the scene by `f` of it. -/
def modifyNode (scene : vtkMRMLScene) (index : Nat) (f : vtkMRMLNode → vtkMRMLNode) :
    vtkMRMLScene :=
  { scene with Nodes := scene.Nodes.modify f index }

end vtkMRMLScene

namespace vtkMRMLApplicationLogic

/-- Appends one entry to the call log of the logic. -/
def logCall {FS : Type} (c : BundleCall) (logic : vtkMRMLApplicationLogic FS) :
    vtkMRMLApplicationLogic FS :=
  { logic with Calls := logic.Calls ++ [c] }

/-- The `while (!uniqueName)` loop of `SaveSceneToSlicerDataBundleDirectory`,
run for at most `fuel` rounds from the counter value `v`: the unique file name,
or `none` when the loop has not ended within `fuel` rounds. -/
def uniqueFileNameLoop {FS : Type} (K : SystemTools FS) (fs : FS) (baseName ext : String) :
    Nat → Int → Option String
  | 0, _ => none
  | fuel + 1, v =>
    let uniqueFileName := baseName ++ toString v ++ ext
    if K.FileExists fs uniqueFileName false = false then some uniqueFileName
    else uniqueFileNameLoop K fs baseName ext fuel (v + 1)

/-- The block "deal with existing files" of
`SaveSceneToSlicerDataBundleDirectory` for the storage node `snode`: the
storage node after the block, or `none` when the search loop has not ended
within `fuel` rounds.  `FileExists` of a null file name is false. -/
def dealWithExistingFile {FS : Type} (K : SystemTools FS) (fs : FS) (fuel : Nat)
    (snode : vtkMRMLNode) : Option vtkMRMLNode :=
  match snode.FileName with
  | none => some snode
  | some fileName =>
    if K.FileExists fs fileName true then
      let baseName := K.GetFilenameWithoutExtension fileName
      let ext := K.GetFilenameExtension fileName
      match uniqueFileNameLoop K fs baseName ext fuel 1 with
      | none => none
      | some uniqueFileName => some { snode with FileName := some uniqueFileName }
    else some snode

/-- The block "remove the directory if it does exist" of
`SaveSceneToSlicerDataBundleDirectory`: `false` when the function returns
`NULL` because the removal has failed, and the logic after the block. -/
def removeExistingDirectory {FS : Type} (K : SystemTools FS)
    (logic : vtkMRMLApplicationLogic FS) (rootDir : String) :
    Bool × vtkMRMLApplicationLogic FS :=
  if K.FileExists logic.FileSystem rootDir false = true then
    let r := K.RemoveADirectory logic.FileSystem rootDir
    (r.1, logCall (BundleCall.RemoveADirectory rootDir) { logic with FileSystem := r.2 })
  else (true, logic)

/-- The blocks "create the SDB directory" and "create the data dir" of
`SaveSceneToSlicerDataBundleDirectory`, which differ in the directory only:
`false` when the function returns `NULL` because the directory could not be
made, and the logic after the block. -/
def makeMissingDirectory {FS : Type} (K : SystemTools FS)
    (logic : vtkMRMLApplicationLogic FS) (dir : String) :
    Bool × vtkMRMLApplicationLogic FS :=
  if K.FileExists logic.FileSystem dir false = false then
    let r := K.MakeDirectory logic.FileSystem dir
    (r.1, logCall (BundleCall.MakeDirectory dir) { logic with FileSystem := r.2 })
  else (true, logic)

/-- The new scene of `SaveSceneToSlicerDataBundleDirectory` with its root
directory and URL set (block "create a new scene"). -/
def newBundleScene {FS : Type} (K : SystemTools FS) (rootDir : String) : vtkMRMLScene :=
  let rootPathComponents := K.SplitPath rootDir
  let sdbScene := { vtkMRMLScene.New with RootDirectory := rootDir }
  let urlStr := K.GetFilenameWithoutExtension rootDir ++ ".mrml"
  let urlStr := K.JoinPath (rootPathComponents ++ [urlStr])
  { sdbScene with URL := urlStr }

/-- The data directory of `SaveSceneToSlicerDataBundleDirectory`. -/
def bundleDataDirectory {FS : Type} (K : SystemTools FS) (rootDir : String) : String :=
  let pathComponents := K.SplitPath rootDir ++ ["Data"]
  K.JoinPath pathComponents

/-- The first part of `SaveSceneToSlicerDataBundleDirectory`, up to the
creation of the data directory: `none` with the logic at the `return NULL`, or
the data directory and the new scene with the logic at the start of the loop
over the nodes. -/
def prepareBundleDirectories {FS : Type} (K : SystemTools FS)
    (this : vtkMRMLApplicationLogic FS) (sdbDir : Option String) :
    Option (String × vtkMRMLScene) × vtkMRMLApplicationLogic FS :=
  match this.MRMLScene with
  | none => (none, this)
  | some _ =>
  match sdbDir with
  | none => (none, this)
  | some sdbDir =>
  if K.FileIsFullPath sdbDir = false then (none, this)
  else if K.FileIsDirectory this.FileSystem sdbDir = false then (none, this)
  else
    let rootDir := sdbDir
    let removed := removeExistingDirectory K this rootDir
    if removed.1 = false then (none, removed.2)
    else
    let made := makeMissingDirectory K removed.2 rootDir
    if made.1 = false then (none, made.2)
    else
    let sdbScene := newBundleScene K rootDir
    let dataDir := bundleDataDirectory K rootDir
    let madeData := makeMissingDirectory K made.2 dataDir
    if madeData.1 = false then (none, madeData.2)
    else (some (dataDir, sdbScene), madeData.2)

/-- The storage node of the copied storable node at `index` of the new scene
(lines "have to create one!" of `SaveSceneToSlicerDataBundleDirectory`): the
position of the storage node in the new scene, `none` for a null `snode`, and
the state after a default storage node has been created and added when the
storable node had none. -/
def storageNodeOfCopy {FS : Type} (M : MRMLCore FS) (st : BundleState FS) (index : Nat)
    (storableNode : vtkMRMLNode) : Option Nat × BundleState FS :=
  match M.GetStorageNode st.sdbScene index with
  | some position => (some position, st)
  | none =>
    match M.CreateDefaultStorageNode storableNode with
    | some snode =>
      let storageFileName := storableNode.Name ++ "." ++ snode.DefaultWriteFileExtension
      let snode := { snode with FileName := some storageFileName }
      let added := M.AddNode st.sdbScene snode
      let scene1 := { st.sdbScene with Nodes := st.sdbScene.Nodes ++ [added] }
      let scene2 := scene1.modifyNode index (fun node => { node with StorageNodeID := added.ID })
      (M.GetStorageNode scene2 index, { st with sdbScene := scene2 })
    | none => (none, st)

/-- The lines of `SaveSceneToSlicerDataBundleDirectory` run for a non-null
`snode` at `position` of the new scene: the data directory is set, an existing
file is dealt with, and the data of the storable node at `index` is written. -/
def writeStorageNode {FS : Type} (K : SystemTools FS) (M : MRMLCore FS) (fuel : Nat)
    (dataDir : String) (index position : Nat) (st : BundleState FS) : BundleState FS :=
  let scene1 := st.sdbScene.modifyNode position (M.SetDataDirectory dataDir)
  match scene1.Nodes[position]?, scene1.Nodes[index]? with
  | some snode, some storableNode =>
    match dealWithExistingFile K st.Logic.FileSystem fuel snode with
    | none => { st with sdbScene := scene1, OutOfFuel := true }
    | some snode1 =>
      let scene2 := scene1.modifyNode position (fun _ => snode1)
      let fs := M.WriteData st.Logic.FileSystem snode1 storableNode
      { st with
        sdbScene := scene2
        Logic := logCall (BundleCall.WriteData snode1.FileName)
          { st.Logic with FileSystem := fs } }
  | _, _ => { st with sdbScene := scene1 }

/-- The body of the loop over the nodes of `SaveSceneToSlicerDataBundleDirectory`
for the non-null node `mrmlNode` at position `i` of the current scene. -/
def copyNodeToBundle {FS : Type} (K : SystemTools FS) (M : MRMLCore FS) (fuel : Nat)
    (dataDir : String) (i : Nat) (mrmlNode : vtkMRMLNode) (st : BundleState FS) :
    BundleState FS :=
  let st1 := { st with Logic := logCall (BundleCall.CopyNode i) st.Logic }
  match M.CopyNode st1.sdbScene mrmlNode with
  | none => st1
  | some copyNode =>
    let index := st1.sdbScene.Nodes.length
    let st2 := { st1 with sdbScene := { st1.sdbScene with Nodes := st1.sdbScene.Nodes ++ [copyNode] } }
    if copyNode.IsStorableNode = true ∧ copyNode.SaveWithScene = true then
      match storageNodeOfCopy M st2 index copyNode with
      | (none, st3) => st3
      | (some position, st3) => writeStorageNode K M fuel dataDir index position st3
    else st2

/-- The loop over the nodes of the current scene, `remaining` rounds from
position `i`; a null `GetNthNode(i)` ends the loop. -/
def copyNodesLoop {FS : Type} (K : SystemTools FS) (M : MRMLCore FS) (fuel : Nat)
    (dataDir : String) : Nat → Nat → BundleState FS → BundleState FS
  | 0, _, st => st
  | remaining + 1, i, st =>
    if st.OutOfFuel = true then st
    else
      match st.Logic.MRMLScene.bind (fun scene => scene.Nodes[i]?) with
      | none => st
      | some mrmlNode =>
        copyNodesLoop K M fuel dataDir remaining (i + 1)
          (copyNodeToBundle K M fuel dataDir i mrmlNode st)

/-- The last part of `SaveSceneToSlicerDataBundleDirectory`: the scene view
node and its storage node are added to the new scene, the scene view is
written, the new scene is committed and its URL is returned. -/
def saveSceneViewAndCommit {FS : Type} (M : MRMLCore FS) (screenShot : Option vtkImageData)
    (st : BundleState FS) : BundleResult FS :=
  let name := M.GetUniqueNameByString st.sdbScene "Slicer Data Bundle Scene View"
  let newSceneViewNode := M.AddNode st.sdbScene (M.SceneViewNode st.sdbScene name screenShot)
  let viewIndex := st.sdbScene.Nodes.length
  let scene1 := { st.sdbScene with Nodes := st.sdbScene.Nodes ++ [newSceneViewNode] }
  let sceneViewFileName := newSceneViewNode.Name ++ ".png"
  let storageNode :=
    { M.SceneViewStorageNode newSceneViewNode with FileName := some sceneViewFileName }
  let storageNode := M.AddNode scene1 storageNode
  let scene2 := { scene1 with Nodes := scene1.Nodes ++ [storageNode] }
  let scene3 := scene2.modifyNode viewIndex
    (fun node => { node with StorageNodeID := storageNode.ID })
  let fs1 := M.WriteData st.Logic.FileSystem storageNode newSceneViewNode
  let logic1 := logCall (BundleCall.WriteData storageNode.FileName)
    { st.Logic with FileSystem := fs1 }
  let committed := M.Commit fs1 scene3
  let logic2 := logCall (BundleCall.Commit scene3.URL) { logic1 with FileSystem := committed.1 }
  { Returned := some (some committed.2.URL), Logic := logic2 }

/-- Method `SaveSceneToSlicerDataBundleDirectory(sdbDir, screenShot)`, with at
most `fuel` rounds for each search of a unique file name. -/
def SaveSceneToSlicerDataBundleDirectory {FS : Type} (K : SystemTools FS) (M : MRMLCore FS)
    (fuel : Nat) (this : vtkMRMLApplicationLogic FS) (sdbDir : Option String)
    (screenShot : Option vtkImageData) : BundleResult FS :=
  match prepareBundleDirectories K this sdbDir with
  | (none, logic) => { Returned := some none, Logic := logic }
  | (some (dataDir, sdbScene), logic) =>
    let numNodes := match logic.MRMLScene with
      | some scene => scene.Nodes.length
      | none => 0
    let st := copyNodesLoop K M fuel dataDir numNodes 0
      { Logic := logic, sdbScene := sdbScene, OutOfFuel := false }
    if st.OutOfFuel = true then { Returned := none, Logic := st.Logic }
    else saveSceneViewAndCommit M screenShot st

end vtkMRMLApplicationLogic

/-- A small file system for evaluating the application logic: the existing
directories with their entries, the existing regular files, the files whose
content is text, and the directories that can be neither removed nor
created. -/
structure SampleFS where
  Directories : List (String × List String)
  Files : List String
  TextFiles : List String
  Locked : List String
deriving DecidableEq, Repr

namespace SampleFS

/-- The components of a path given as characters: `current` collects the
characters of the component being read. -/
def splitComponents : List Char → List Char → List String
  | [], current => [String.mk current]
  | c :: rest, current =>
    if c = '/' then String.mk current :: splitComponents rest []
    else splitComponents rest (current ++ [c])

/-- Path splitting on the sample file system: the root `/` of a full path and
then its components. -/
def SplitPath (path : String) : List String :=
  match path.data with
  | '/' :: rest => "/" :: splitComponents rest []
  | chars => "" :: splitComponents chars []

/-- Path joining as KWSys does it: the first two components are appended as
they are, every further component is preceded by a slash. -/
def JoinPath : List String → String
  | [] => ""
  | [a] => a
  | a :: b :: rest => rest.foldl (fun r c => r ++ "/" ++ c) (a ++ b)

/-- The file name of a path given as characters: what follows the last
slash. -/
def fileNameChars (chars : List Char) : List Char :=
  (chars.reverse.takeWhile (fun c => c ≠ '/')).reverse

/-- The file name without its directory and without its extension, which
starts at the first dot. -/
def GetFilenameWithoutExtension (path : String) : String :=
  String.mk ((fileNameChars path.data).takeWhile (fun c => c ≠ '.'))

/-- The extension of the file name, from its first dot on. -/
def GetFilenameExtension (path : String) : String :=
  String.mk ((fileNameChars path.data).dropWhile (fun c => c ≠ '.'))

/-- The directory `path` exists. -/
def isDirectory (fs : SampleFS) (path : String) : Bool :=
  fs.Directories.any (fun d => d.1 = path)

/-- Removal of a directory that is not locked. -/
def RemoveADirectory (fs : SampleFS) (path : String) : Bool × SampleFS :=
  if path ∈ fs.Locked then (false, fs)
  else (true, { fs with Directories := fs.Directories.filter (fun d => d.1 ≠ path) })

/-- Creation of a directory: succeeds when the directory exists already, fails
when a file of that name exists or the directory is locked. -/
def MakeDirectory (fs : SampleFS) (path : String) : Bool × SampleFS :=
  if isDirectory fs path then (true, fs)
  else if path ∈ fs.Files ∨ path ∈ fs.Locked then (false, fs)
  else (true, { fs with Directories := (path, []) :: fs.Directories })

end SampleFS

/-- The system tools on the sample file system. -/
def sampleSystemTools : SystemTools SampleFS where
  FileIsFullPath path := path.data.head? = some '/'
  SplitPath := SampleFS.SplitPath
  JoinPath := SampleFS.JoinPath
  GetFilenameWithoutExtension := SampleFS.GetFilenameWithoutExtension
  GetFilenameExtension := SampleFS.GetFilenameExtension
  FileTypeText := 2
  DetectFileType fs path := if path ∈ fs.TextFiles then 2 else 0
  opendir fs path := (fs.Directories.find? (fun d => d.1 = path)).map (fun d => d.2)
  FileIsDirectory := SampleFS.isDirectory
  FileExists fs path isFile :=
    if isFile then decide (path ∈ fs.Files)
    else decide (path ∈ fs.Files) || SampleFS.isDirectory fs path
  RemoveADirectory := SampleFS.RemoveADirectory
  MakeDirectory := SampleFS.MakeDirectory
  FileExists_of_FileIsDirectory := by
    intro fs path h
    simp [h]
  FileExists_MakeDirectory := by
    intro fs path h
    unfold SampleFS.MakeDirectory at h ⊢
    by_cases h1 : SampleFS.isDirectory fs path = true
    · simp [h1]
    · by_cases h2 : path ∈ fs.Files ∨ path ∈ fs.Locked
      · simp [h1, h2] at h
      · rw [if_neg h1, if_neg h2]
        simp [SampleFS.isDirectory]
  FileExists_MakeDirectory_other := by
    intro fs path other h
    unfold SampleFS.MakeDirectory
    by_cases h1 : SampleFS.isDirectory fs path = true
    · rw [if_pos h1]
      exact h
    · by_cases h2 : path ∈ fs.Files ∨ path ∈ fs.Locked
      · rw [if_neg h1, if_pos h2]
        exact h
      · rw [if_neg h1, if_neg h2]
        simp only [Bool.false_eq_true, if_false, Bool.or_eq_true, decide_eq_true_eq,
          SampleFS.isDirectory, List.any_cons, List.any_eq_true] at h ⊢
        rcases h with h | h
        · exact Or.inl h
        · exact Or.inr (Or.inr h)

/-- A file system with the bundle directory `/tmp/bundle`, a preset directory
holding one text file and one binary file, and one locked directory. -/
def sampleFS : SampleFS :=
  { Directories :=
      [("/tmp/bundle", ["old.mrml"]),
       ("/presets", [".", "..", "a.mrml", "b.png"]),
       ("/locked", [])]
    Files := ["/tmp/bundle/old.mrml", "/presets//a.mrml", "/presets//b.png",
      "/tmp/bundle/Data/vol.nrrd", "vol1.nrrd"]
    TextFiles := ["/tmp/bundle/old.mrml", "/presets//a.mrml"]
    Locked := ["/locked"] }

/-- A scene with one storable node that has no storage node yet. -/
def sampleScene : vtkMRMLScene :=
  { URL := "/home/user/scene.mrml"
    RootDirectory := "/home/user"
    Nodes :=
      [{ ID := some "vtkMRMLScalarVolumeNode1"
         Name := "vol"
         Attributes := [("Modality", "CT")]
         IsStorableNode := true
         SaveWithScene := true
         StorageNodeID := none
         FileName := none
         DefaultWriteFileExtension := "nrrd" }] }

/-- An import that appends a node named after the URL of the scene and moves
the root directory of the scene. -/
def sampleImport (_fs : SampleFS) (scene : vtkMRMLScene) : vtkMRMLScene :=
  { scene with
    RootDirectory := "/presets"
    Nodes := scene.Nodes ++
      [{ ID := none, Name := scene.URL, Attributes := [], IsStorableNode := false,
         SaveWithScene := false, StorageNodeID := none, FileName := none,
         DefaultWriteFileExtension := "" }] }

/-- A node with the given name and no other content. -/
def sampleNode (name : String) : vtkMRMLNode :=
  { ID := none, Name := name, Attributes := [], IsStorableNode := false, SaveWithScene := false,
    StorageNodeID := none, FileName := none, DefaultWriteFileExtension := "" }

/-- The storage node of the node at `index` of `scene`: the position of the
node whose ID is the storage node ID of that node. -/
def sampleGetStorageNode (scene : vtkMRMLScene) (index : Nat) : Option Nat :=
  match scene.Nodes[index]? with
  | none => none
  | some storableNode =>
    match storableNode.StorageNodeID with
    | none => none
    | some id =>
      let position := scene.Nodes.findIdx (fun node => node.ID = some id)
      if position < scene.Nodes.length then some position else none

/-- MRML classes for evaluating the application logic on the sample file
system: nodes are copied as they are, a node without ID gets an ID from its name
and the size of the scene, `SetDataDirectory` puts the file name below the data
directory, and writing adds the file to the file system. -/
def sampleMRML : MRMLCore SampleFS where
  CopyNode _ node := some node
  GetStorageNode := sampleGetStorageNode
  CreateDefaultStorageNode node :=
    let snode := sampleNode (node.Name ++ "Storage")
    some { snode with DefaultWriteFileExtension := node.DefaultWriteFileExtension }
  AddNode scene node :=
    match node.ID with
    | some _ => node
    | none => { node with ID := some (node.Name ++ toString scene.Nodes.length) }
  SetDataDirectory dir snode :=
    let moved := snode.FileName.map
      (fun file => dir ++ "/" ++ String.mk (SampleFS.fileNameChars file.data))
    { snode with FileName := moved }
  WriteData fs snode _ :=
    match snode.FileName with
    | some file => { fs with Files := file :: fs.Files }
    | none => fs
  GetUniqueNameByString _ name := name
  SceneViewNode _ name _ := sampleNode name
  SceneViewStorageNode node := sampleNode (node.Name ++ "Storage")
  Commit fs scene := ({ fs with Files := scene.URL :: fs.Files }, scene)

/-- The application logic with the sample scene on the sample file system. -/
def sampleLogic : vtkMRMLApplicationLogic SampleFS :=
  { MRMLScene := some sampleScene, FileSystem := sampleFS, Calls := [] }

/-- A storage node whose file exists on the sample file system. -/
def sampleStorageNode : vtkMRMLNode :=
  let snode := sampleNode "volStorage"
  { snode with FileName := some "/tmp/bundle/Data/vol.nrrd" }

open vtkSliceViewInteractorStyle

/-- The call log entry does not touch the style. -/
theorem call_Style (c : Call) (w : World) : (call c w).Style = w.Style := rfl

/-- After `StartTranslate` the action state is `Translate`. -/
theorem StartTranslate_ActionState (E : ActionStateEnum) (w : World) :
    (StartTranslate E w).Style.ActionState = E.Translate := rfl

/-- The handler `StartTranslate` changes neither the interactor nor the
recorded start window. -/
theorem StartTranslate_frame (E : ActionStateEnum) (w : World) :
    (StartTranslate E w).Interactor = w.Interactor ∧
    (StartTranslate E w).Style.ActionStartWindow = w.Style.ActionStartWindow ∧
    (StartTranslate E w).SliceLogic = w.SliceLogic := ⟨rfl, rfl, rfl⟩

/-- C1: the constructor leaves the action state `None`, and from every prior
world (hence every prior action state) `OnRightButtonDown` leaves it `Zoom`,
`OnMiddleButtonDown` leaves it `Translate`, and `OnRightButtonUp` and
`OnMiddleButtonUp` each leave it `None`. -/
theorem C1_button_action_states (E : ActionStateEnum)
    (raw : vtkSliceViewInteractorStyle) (w : World) :
    (construct E raw).ActionState = E.None ∧
    (OnRightButtonDown E w).Style.ActionState = E.Zoom ∧
    (OnMiddleButtonDown E w).Style.ActionState = E.Translate ∧
    (OnRightButtonUp E w).Style.ActionState = E.None ∧
    (OnMiddleButtonUp E w).Style.ActionState = E.None :=
  ⟨rfl, rfl, rfl, rfl, rfl⟩

/-- C2: from every prior action state `s`, `OnLeftButtonDown` leaves the action
state `Translate` when Shift is down (whatever Control is), `Blend` when
Control is down and Shift is not, and `s` when neither is down; in all cases
the recorded start window is the current event position. -/
theorem C2_left_button_down (E : ActionStateEnum) (w : World) :
    (OnLeftButtonDown E w).Style.ActionState =
      (if w.Interactor.ShiftKey ≠ 0 then E.Translate
       else if w.Interactor.ControlKey ≠ 0 then E.Blend
       else w.Style.ActionState) ∧
    (OnLeftButtonDown E w).Style.ActionStartWindow = w.Interactor.EventPosition := by
  unfold OnLeftButtonDown
  by_cases hs : w.Interactor.ShiftKey ≠ 0
  · rw [if_pos hs, if_pos hs]
    exact ⟨rfl, rfl⟩
  · by_cases hc : w.Interactor.ControlKey ≠ 0
    · rw [if_neg hs, if_neg hs, if_pos hc, if_pos hc]
      exact ⟨rfl, rfl⟩
    · rw [if_neg hs, if_neg hs, if_neg hc, if_neg hc]
      exact ⟨rfl, rfl⟩

/-- C3: from every prior action state `s`, `OnLeftButtonUp` leaves the action
state `None` when `s` is `Translate` or `Blend` and leaves it `s` otherwise, so
that a zoom in progress stays a zoom; when `s` is `Blend` the two recorded
start opacities become the current opacities of the composite node. -/
theorem C3_left_button_up (E : ActionStateEnum) (w : World) :
    (OnLeftButtonUp E w).Style.ActionState =
      (if w.Style.ActionState = E.Translate ∨ w.Style.ActionState = E.Blend then E.None
       else w.Style.ActionState) ∧
    (w.Style.ActionState = E.Zoom → (OnLeftButtonUp E w).Style.ActionState = E.Zoom) ∧
    (w.Style.ActionState = E.Blend →
      (OnLeftButtonUp E w).Style.ActionStartForegroundOpacity
        = w.SliceLogic.SliceCompositeNode.ForegroundOpacity ∧
      (OnLeftButtonUp E w).Style.ActionStartLabelOpacity
        = w.SliceLogic.SliceCompositeNode.LabelOpacity) := by
  obtain ⟨hTZ, hTB, hZB⟩ := E.labels_distinct
  unfold OnLeftButtonUp
  refine ⟨?_, ?_, ?_⟩
  · by_cases ht : w.Style.ActionState = E.Translate
    · simp only [ht, if_true, true_or]
      rfl
    · by_cases hb : w.Style.ActionState = E.Blend
      · simp only [hb, if_true, or_true]
        split <;> rfl
      · simp only [ht, hb, if_false, or_self]
        rfl
  · intro hz
    have h1 : ¬ w.Style.ActionState = E.Translate := fun h => hTZ (h.symm.trans hz)
    have h2 : ¬ w.Style.ActionState = E.Blend := fun h => hZB (hz.symm.trans h)
    simp only [h1, h2, if_false]
    exact hz
  · intro hb
    have h1 : ¬ w.Style.ActionState = E.Translate := fun h => hTB (h.symm.trans hb)
    rw [if_neg h1, if_pos hb]
    exact ⟨rfl, rfl⟩

/-- Witness for C3 at a world in `Blend` state and at a world in `Zoom` state. -/
theorem C3_left_button_up_witness :
    (sampleWorld sampleEnum.Zoom).Style.ActionState = sampleEnum.Zoom ∧
    (OnLeftButtonUp sampleEnum (sampleWorld sampleEnum.Zoom)).Style.ActionState
      = sampleEnum.Zoom ∧
    (sampleWorld sampleEnum.Blend).Style.ActionState = sampleEnum.Blend ∧
    (OnLeftButtonUp sampleEnum (sampleWorld sampleEnum.Blend)).Style.ActionStartForegroundOpacity
      = 1 / 2 :=
  ⟨rfl, (C3_left_button_up sampleEnum (sampleWorld sampleEnum.Zoom)).2.1 rfl, rfl,
   ((C3_left_button_up sampleEnum (sampleWorld sampleEnum.Blend)).2.2 rfl).1⟩

/-- In `Zoom` state `OnMouseMove` takes the second branch of its `switch`. -/
theorem OnMouseMove_zoom_FieldOfView (E : ActionStateEnum) (w : World)
    (hz : w.Style.ActionState = E.Zoom) :
    (OnMouseMove E w).SliceLogic.SliceNode.FieldOfView =
      (if 0 < ((w.Interactor.Size.y + (w.Interactor.EventPosition.y
            - w.Style.ActionStartWindow.y) : Int) : ℚ) / (1 * (w.Interactor.Size.y : ℚ)) then
        ⟨w.Style.ActionStartFOV.x *
            (((w.Interactor.Size.y + (w.Interactor.EventPosition.y
              - w.Style.ActionStartWindow.y) : Int) : ℚ) / (1 * (w.Interactor.Size.y : ℚ))),
         w.Style.ActionStartFOV.y *
            (((w.Interactor.Size.y + (w.Interactor.EventPosition.y
              - w.Style.ActionStartWindow.y) : Int) : ℚ) / (1 * (w.Interactor.Size.y : ℚ))),
         w.Style.ActionStartFOV.z⟩
       else w.SliceLogic.SliceNode.FieldOfView) := by
  have h1 : ¬ w.Style.ActionState = E.Translate :=
    fun h => E.labels_distinct.1 (h.symm.trans hz)
  unfold OnMouseMove
  rw [if_neg h1, if_pos hz]
  simp only [gt_iff_lt]
  split <;> rfl

/-- C4: in `Zoom` state with window height `H ≠ 0` and
`percent = (H + (y - ActionStartWindow.y)) / H`, `OnMouseMove` sets the field of
view to `(ActionStartFOV.x * percent, ActionStartFOV.y * percent,
ActionStartFOV.z)` when `percent > 0` and leaves it unchanged otherwise; a zoom
begun by `OnRightButtonDown` therefore never changes the z component. -/
theorem C4_zoom_field_of_view (E : ActionStateEnum) (w : World)
    (hz : w.Style.ActionState = E.Zoom) (hH : w.Interactor.Size.y ≠ 0) :
    (OnMouseMove E w).SliceLogic.SliceNode.FieldOfView =
      (if 0 < ((w.Interactor.Size.y : ℚ) + ((w.Interactor.EventPosition.y : ℚ)
            - (w.Style.ActionStartWindow.y : ℚ))) / (w.Interactor.Size.y : ℚ) then
        ⟨w.Style.ActionStartFOV.x *
            (((w.Interactor.Size.y : ℚ) + ((w.Interactor.EventPosition.y : ℚ)
              - (w.Style.ActionStartWindow.y : ℚ))) / (w.Interactor.Size.y : ℚ)),
         w.Style.ActionStartFOV.y *
            (((w.Interactor.Size.y : ℚ) + ((w.Interactor.EventPosition.y : ℚ)
              - (w.Style.ActionStartWindow.y : ℚ))) / (w.Interactor.Size.y : ℚ)),
         w.Style.ActionStartFOV.z⟩
       else w.SliceLogic.SliceNode.FieldOfView) ∧
    (∀ (w0 : World) (i : vtkRenderWindowInteractor), i.Size.y ≠ 0 →
      (OnMouseMove E { OnRightButtonDown E w0 with Interactor := i }).SliceLogic.SliceNode.FieldOfView.z
        = w0.SliceLogic.SliceNode.FieldOfView.z) := by
  have _hH : (w.Interactor.Size.y : ℚ) ≠ 0 := by exact_mod_cast hH
  refine ⟨?_, ?_⟩
  · rw [OnMouseMove_zoom_FieldOfView E w hz]
    simp only [Int.cast_add, Int.cast_sub, one_mul]
  · intro w0 i _
    rw [OnMouseMove_zoom_FieldOfView E _ rfl]
    split <;> rfl

/-- Witness for C4: window height 200 and a move from y = 20 to y = 70 give
`percent = 5/4`. -/
theorem C4_zoom_field_of_view_witness :
    (sampleWorld sampleEnum.Zoom).Style.ActionState = sampleEnum.Zoom ∧
    (sampleWorld sampleEnum.Zoom).Interactor.Size.y ≠ 0 ∧
    (OnMouseMove sampleEnum (sampleWorld sampleEnum.Zoom)).SliceLogic.SliceNode.FieldOfView
      = ⟨625 / 2, 250, 1⟩ :=
  ⟨rfl, by decide,
   (C4_zoom_field_of_view sampleEnum (sampleWorld sampleEnum.Zoom) rfl (by decide)).1.trans
     (by norm_num [sampleWorld, sampleInteractor, sampleSliceNode])⟩

/-- Clamping with `std::min(std::max(v, 0.), 1.)` gives a value in `[0, 1]`. -/
theorem clamp_unit_interval (v : ℚ) : 0 ≤ min (max v 0) 1 ∧ min (max v 0) 1 ≤ 1 :=
  ⟨le_min (le_max_right v 0) zero_le_one, min_le_right _ _⟩

/-- In `Blend` state `OnMouseMove` takes the third branch of its `switch`; the
two opacities of the composite node after the call. -/
theorem OnMouseMove_blend_opacities (E : ActionStateEnum) (w : World)
    (hb : w.Style.ActionState = E.Blend) :
    (OnMouseMove E w).SliceLogic.SliceCompositeNode.ForegroundOpacity =
      (if w.SliceLogic.SliceCompositeNode.ForegroundVolumeID ≠ none then
        min (max (w.Style.ActionStartForegroundOpacity
          + (2 * ((w.Interactor.EventPosition.y - w.Style.ActionStartWindow.y : Int) : ℚ))
            / ((min w.Interactor.Size.x w.Interactor.Size.y : Int) : ℚ)) 0) 1
       else w.SliceLogic.SliceCompositeNode.ForegroundOpacity) ∧
    (OnMouseMove E w).SliceLogic.SliceCompositeNode.LabelOpacity =
      (if w.SliceLogic.SliceCompositeNode.LabelVolumeID ≠ none then
        min (max (w.Style.ActionStartLabelOpacity
          + (2 * ((w.Interactor.EventPosition.x - w.Style.ActionStartWindow.x : Int) : ℚ))
            / ((min w.Interactor.Size.x w.Interactor.Size.y : Int) : ℚ)) 0) 1
       else w.SliceLogic.SliceCompositeNode.LabelOpacity) := by
  have h1 : ¬ w.Style.ActionState = E.Translate :=
    fun h => E.labels_distinct.2.1 (h.symm.trans hb)
  have h2 : ¬ w.Style.ActionState = E.Zoom :=
    fun h => E.labels_distinct.2.2 (h.symm.trans hb)
  unfold OnMouseMove
  rw [if_neg h1, if_neg h2, if_pos hb]
  by_cases hf : w.SliceLogic.SliceCompositeNode.ForegroundVolumeID ≠ none <;>
  by_cases hl : w.SliceLogic.SliceCompositeNode.LabelVolumeID ≠ none <;>
  simp [hf, hl, call, SetForegroundOpacity, SetLabelOpacity]

/-- C5: in `Blend` state with the smaller window side `m` positive,
`OnMouseMove` writes the foreground opacity
`min(max(ActionStartForegroundOpacity + 2*(y - ActionStartWindow.y)/m, 0), 1)`
only if the composite node has a foreground volume ID and the label opacity
`min(max(ActionStartLabelOpacity + 2*(x - ActionStartWindow.x)/m, 0), 1)` only
if it has a label volume ID; a written opacity lies in `[0, 1]` and an opacity
whose volume ID is absent keeps its value. -/
theorem C5_blend_opacities (E : ActionStateEnum) (w : World)
    (hb : w.Style.ActionState = E.Blend)
    (hm : 0 < min w.Interactor.Size.x w.Interactor.Size.y) :
    (OnMouseMove E w).SliceLogic.SliceCompositeNode.ForegroundOpacity =
      (if w.SliceLogic.SliceCompositeNode.ForegroundVolumeID ≠ none then
        min (max (w.Style.ActionStartForegroundOpacity
          + 2 * ((w.Interactor.EventPosition.y : ℚ) - (w.Style.ActionStartWindow.y : ℚ))
            / ((min w.Interactor.Size.x w.Interactor.Size.y : Int) : ℚ)) 0) 1
       else w.SliceLogic.SliceCompositeNode.ForegroundOpacity) ∧
    (OnMouseMove E w).SliceLogic.SliceCompositeNode.LabelOpacity =
      (if w.SliceLogic.SliceCompositeNode.LabelVolumeID ≠ none then
        min (max (w.Style.ActionStartLabelOpacity
          + 2 * ((w.Interactor.EventPosition.x : ℚ) - (w.Style.ActionStartWindow.x : ℚ))
            / ((min w.Interactor.Size.x w.Interactor.Size.y : Int) : ℚ)) 0) 1
       else w.SliceLogic.SliceCompositeNode.LabelOpacity) ∧
    (w.SliceLogic.SliceCompositeNode.ForegroundVolumeID ≠ none →
      0 ≤ (OnMouseMove E w).SliceLogic.SliceCompositeNode.ForegroundOpacity ∧
      (OnMouseMove E w).SliceLogic.SliceCompositeNode.ForegroundOpacity ≤ 1) ∧
    (w.SliceLogic.SliceCompositeNode.LabelVolumeID ≠ none →
      0 ≤ (OnMouseMove E w).SliceLogic.SliceCompositeNode.LabelOpacity ∧
      (OnMouseMove E w).SliceLogic.SliceCompositeNode.LabelOpacity ≤ 1) := by
  have _hm : ((min w.Interactor.Size.x w.Interactor.Size.y : Int) : ℚ) ≠ 0 := by
    exact_mod_cast (ne_of_gt hm)
  obtain ⟨hF, hL⟩ := OnMouseMove_blend_opacities E w hb
  refine ⟨?_, ?_, ?_, ?_⟩
  · rw [hF]
    simp only [Int.cast_sub]
  · rw [hL]
    simp only [Int.cast_sub]
  · intro hf
    rw [hF, if_pos hf]
    exact clamp_unit_interval _
  · intro hl
    rw [hL, if_pos hl]
    exact clamp_unit_interval _

/-- Witness for C5: a 400 x 200 window, a move from (20, 20) to (30, 70), a
foreground volume and no label volume: the foreground opacity becomes
`min(max(1/2 + 2*50/200, 0), 1) = 1` and the label opacity stays `1/4`. -/
theorem C5_blend_opacities_witness :
    (sampleWorld sampleEnum.Blend).Style.ActionState = sampleEnum.Blend ∧
    0 < min (sampleWorld sampleEnum.Blend).Interactor.Size.x
      (sampleWorld sampleEnum.Blend).Interactor.Size.y ∧
    (OnMouseMove sampleEnum (sampleWorld sampleEnum.Blend)).SliceLogic.SliceCompositeNode.ForegroundOpacity
      = 1 ∧
    (OnMouseMove sampleEnum (sampleWorld sampleEnum.Blend)).SliceLogic.SliceCompositeNode.LabelOpacity
      = 1 / 4 :=
  ⟨rfl, by decide,
   (C5_blend_opacities sampleEnum (sampleWorld sampleEnum.Blend) rfl (by decide)).1.trans
     (by
       norm_num [sampleWorld, sampleInteractor, sampleCompositeNode]
       exact Option.some_ne_none _),
   (C5_blend_opacities sampleEnum (sampleWorld sampleEnum.Blend) rfl (by decide)).2.1.trans
     (by norm_num [sampleWorld, sampleInteractor, sampleCompositeNode])⟩

/-- C6: in `Translate` state `OnMouseMove` sets the slice origin to
`(ActionStartWindow.x - x, ActionStartWindow.y - y, 0)`; a move to the recorded
start position, such as the first move after `OnMiddleButtonDown` at the same
event position, sets the origin to `(0, 0, 0)`. -/
theorem C6_translate_origin (E : ActionStateEnum) (w : World)
    (ht : w.Style.ActionState = E.Translate) :
    (OnMouseMove E w).SliceLogic.SliceNode.SliceOrigin =
      ⟨(w.Style.ActionStartWindow.x : ℚ) - (w.Interactor.EventPosition.x : ℚ),
       (w.Style.ActionStartWindow.y : ℚ) - (w.Interactor.EventPosition.y : ℚ), 0⟩ ∧
    (w.Interactor.EventPosition = w.Style.ActionStartWindow →
      (OnMouseMove E w).SliceLogic.SliceNode.SliceOrigin = ⟨0, 0, 0⟩) ∧
    (∀ w0 : World,
      (OnMouseMove E (OnMiddleButtonDown E w0)).SliceLogic.SliceNode.SliceOrigin = ⟨0, 0, 0⟩) := by
  have key : ∀ v : World, v.Style.ActionState = E.Translate →
      (OnMouseMove E v).SliceLogic.SliceNode.SliceOrigin =
        ⟨(v.Style.ActionStartWindow.x : ℚ) - (v.Interactor.EventPosition.x : ℚ),
         (v.Style.ActionStartWindow.y : ℚ) - (v.Interactor.EventPosition.y : ℚ), 0⟩ := by
    intro v hv
    unfold OnMouseMove
    rw [if_pos hv]
    simp only [SetSliceOrigin, Int.cast_sub]
  refine ⟨key w ht, ?_, ?_⟩
  · intro hp
    rw [key w ht, hp]
    simp only [sub_self]
  · intro w0
    rw [key _ rfl]
    have h1 : (OnMiddleButtonDown E w0).Style.ActionStartWindow
        = (OnMiddleButtonDown E w0).Interactor.EventPosition := rfl
    rw [h1]
    simp only [sub_self]

/-- Witness for C6: a pan from (20, 20) to (30, 70) sets the origin to
`(-10, -50, 0)`. -/
theorem C6_translate_origin_witness :
    (sampleWorld sampleEnum.Translate).Style.ActionState = sampleEnum.Translate ∧
    (OnMouseMove sampleEnum (sampleWorld sampleEnum.Translate)).SliceLogic.SliceNode.SliceOrigin
      = ⟨-10, -50, 0⟩ :=
  ⟨rfl,
   (C6_translate_origin sampleEnum (sampleWorld sampleEnum.Translate) rfl).1.trans
     (by norm_num [sampleWorld, sampleInteractor])⟩

/-- C7: `GetEventRAS` returns the product of the slice node's XYToRAS matrix
with the homogeneous column vector `(x - ox, y - oy, 0, 1)`, where `(x, y)` is
the event position and `(ox, oy)` the origin of the poked renderer. -/
theorem C7_event_ras (w : World) :
    (GetEventRAS w).1 =
      Matrix.mulVec w.SliceLogic.SliceNode.XYToRAS
        ![(w.Interactor.EventPosition.x : ℚ)
            - ((w.Interactor.PokedRendererOrigin w.Interactor.EventPosition.x
                w.Interactor.EventPosition.y).x : ℚ),
          (w.Interactor.EventPosition.y : ℚ)
            - ((w.Interactor.PokedRendererOrigin w.Interactor.EventPosition.x
                w.Interactor.EventPosition.y).y : ℚ),
          0, 1] := by
  funext i
  simp only [GetEventRAS, call, vtkMatrix4x4.MultiplyPoint, Matrix.mulVec, Matrix.dotProduct,
    Fin.sum_univ_four, Int.cast_sub]
  simp only [Matrix.cons_val_zero, Matrix.cons_val_one, Matrix.head_cons, Matrix.cons_val_two,
    Matrix.tail_cons, Matrix.cons_val_three]
  ring

/-- C8: when the render window has width 0 or height 0, `GetEventXYZ` returns
`(0, 0, 0, 1)` and leaves the world, call log included, as it was: no division
and no query of the poked renderer takes place.  For every other window
`xyz[3] = 1`, `xyz[0] = x - origin.x` and `xyz[1] = y - origin.y`. -/
theorem C8_event_xyz (w : World) :
    (w.Interactor.Size.x = 0 ∨ w.Interactor.Size.y = 0 →
      (GetEventXYZ w).1 = ![0, 0, 0, 1] ∧ (GetEventXYZ w).2 = w) ∧
    (w.Interactor.Size.x ≠ 0 ∧ w.Interactor.Size.y ≠ 0 →
      (GetEventXYZ w).1 3 = 1 ∧
      (GetEventXYZ w).1 0 = (w.Interactor.EventPosition.x : ℚ)
        - ((w.Interactor.PokedRendererOrigin w.Interactor.EventPosition.x
            w.Interactor.EventPosition.y).x : ℚ) ∧
      (GetEventXYZ w).1 1 = (w.Interactor.EventPosition.y : ℚ)
        - ((w.Interactor.PokedRendererOrigin w.Interactor.EventPosition.x
            w.Interactor.EventPosition.y).y : ℚ)) := by
  refine ⟨?_, ?_⟩
  · intro h
    unfold GetEventXYZ
    rw [if_pos h]
    exact ⟨rfl, rfl⟩
  · intro h
    have h1 : ¬ (w.Interactor.Size.x = 0 ∨ w.Interactor.Size.y = 0) := by
      rintro (h0 | h0)
      · exact h.1 h0
      · exact h.2 h0
    unfold GetEventXYZ
    rw [if_neg h1]
    refine ⟨rfl, ?_, ?_⟩
    · simp only [Matrix.cons_val_zero, Int.cast_sub]
    · simp only [Matrix.cons_val_one, Matrix.head_cons, Int.cast_sub]

/-- Witness for C8: a window of width 0, and the 400 x 200 sample window with
the event at (30, 70) and renderer origin (10, 20). -/
theorem C8_event_xyz_witness :
    (degenerateWorld.Interactor.Size.x = 0 ∨ degenerateWorld.Interactor.Size.y = 0) ∧
    (GetEventXYZ degenerateWorld).2.Calls = [] ∧
    ((sampleWorld 0).Interactor.Size.x ≠ 0 ∧ (sampleWorld 0).Interactor.Size.y ≠ 0) ∧
    (GetEventXYZ (sampleWorld 0)).1 0 = 20 :=
  ⟨Or.inl rfl,
   congrArg World.Calls ((C8_event_xyz degenerateWorld).1 (Or.inl rfl)).2,
   ⟨by decide, by decide⟩,
   ((C8_event_xyz (sampleWorld 0)).2 ⟨by decide, by decide⟩).2.1.trans
     (by norm_num [sampleWorld, sampleInteractor])⟩

/-- The slice offset after `MoveSlice delta` is the old offset plus `delta`. -/
theorem MoveSlice_SliceOffset (delta : ℚ) (w : World) :
    (MoveSlice delta w).SliceLogic.SliceOffset = w.SliceLogic.SliceOffset + delta := rfl

/-- C9: `OnKeyPress` handles the arrow keys: for key sym "Right" or "Up" the
slice offset becomes the old offset plus the spacing, for "Left" or "Down" the
old offset minus the spacing, and for every other key sym the handler only
calls the superclass, so the offset keeps its value.  The spacing is the z
component of the prescribed slice spacing when the spacing mode of the slice
node is `PrescribedSliceSpacingMode`, and the z component of the lowest volume
slice spacing of the slice logic otherwise. -/
theorem C9_arrow_keys (PrescribedSliceSpacingMode : Int) (w : World) :
    (OnKeyPress PrescribedSliceSpacingMode w).SliceLogic.SliceOffset =
      (if w.Interactor.KeySym = "Right" ∨ w.Interactor.KeySym = "Up" then
        w.SliceLogic.SliceOffset +
          (if w.SliceLogic.SliceNode.SliceSpacingMode = PrescribedSliceSpacingMode then
            w.SliceLogic.SliceNode.PrescribedSliceSpacing.z
           else w.SliceLogic.LowestVolumeSliceSpacing.z)
       else if w.Interactor.KeySym = "Left" ∨ w.Interactor.KeySym = "Down" then
        w.SliceLogic.SliceOffset -
          (if w.SliceLogic.SliceNode.SliceSpacingMode = PrescribedSliceSpacingMode then
            w.SliceLogic.SliceNode.PrescribedSliceSpacing.z
           else w.SliceLogic.LowestVolumeSliceSpacing.z)
       else w.SliceLogic.SliceOffset) ∧
    (¬ (w.Interactor.KeySym = "Right" ∨ w.Interactor.KeySym = "Up") →
      ¬ (w.Interactor.KeySym = "Left" ∨ w.Interactor.KeySym = "Down") →
      OnKeyPress PrescribedSliceSpacingMode w = call (Call.Superclass "OnKeyPress") w) := by
  refine ⟨?_, ?_⟩
  · unfold OnKeyPress
    by_cases hr : w.Interactor.KeySym = "Right" ∨ w.Interactor.KeySym = "Up"
    · rw [if_pos hr, if_pos hr]
      rfl
    · by_cases hl : w.Interactor.KeySym = "Left" ∨ w.Interactor.KeySym = "Down"
      · rw [if_neg hr, if_neg hr, if_pos hl, if_pos hl]
        unfold DecrementSlice
        rw [MoveSlice_SliceOffset, GetSliceSpacing]
        ring
      · rw [if_neg hr, if_neg hr, if_neg hl, if_neg hl]
        rfl
  · intro hr hl
    unfold OnKeyPress
    rw [if_neg hr, if_neg hl]

/-- Witness for C9: with offset 10 and lowest volume slice spacing 2 (the
spacing mode 0 is not the prescribed mode 1), "Up" gives 12, "Down" gives 8,
and "a" is passed to the superclass. -/
theorem C9_arrow_keys_witness :
    (OnKeyPress 1 (keyWorld "Up")).SliceLogic.SliceOffset = 12 ∧
    (OnKeyPress 1 (keyWorld "Down")).SliceLogic.SliceOffset = 8 ∧
    ¬ ((keyWorld "a").Interactor.KeySym = "Right" ∨ (keyWorld "a").Interactor.KeySym = "Up") ∧
    ¬ ((keyWorld "a").Interactor.KeySym = "Left" ∨ (keyWorld "a").Interactor.KeySym = "Down") ∧
    (OnKeyPress 1 (keyWorld "a")).Calls = [Call.Superclass "OnKeyPress"] :=
  ⟨(C9_arrow_keys 1 (keyWorld "Up")).1.trans
     (by norm_num [keyWorld, sampleWorld, sampleInteractor, sampleSliceNode]),
   (C9_arrow_keys 1 (keyWorld "Down")).1.trans
     (by
       have h : ¬ ("Down" = "Right" ∨ "Down" = "Up") := by decide
       simp only [keyWorld, sampleWorld, sampleInteractor, sampleSliceNode, if_neg h]
       norm_num),
   by decide, by decide,
   congrArg World.Calls ((C9_arrow_keys 1 (keyWorld "a")).2 (by decide) (by decide))⟩

open vtkMRMLModelDisplayNode

/-- The call log after `UpdatePolyDataPipeline`: the old log, the entry of the
pipeline update itself, and then entries other than pipeline updates. -/
theorem UpdatePolyDataPipeline_Calls (vtk : VTK) (n : vtkMRMLModelDisplayNode) :
    ∃ rest : List NodeCall,
      (UpdatePolyDataPipeline vtk n).Calls
        = n.Calls ++ NodeCall.UpdatePolyDataPipeline :: rest ∧
      rest.count NodeCall.UpdatePolyDataPipeline = 0 := by
  unfold UpdatePolyDataPipeline
  simp only [GetOutputPolyDataConnection]
  by_cases hs : n.ActiveScalarName ≠ none
  · simp only [if_pos hs]
    split_ifs
    · refine ⟨[NodeCall.Update OutputPort.AssignAttribute], ?_, by decide⟩
      split <;> simp
    · exact ⟨[], rfl, rfl⟩
  · simp only [if_neg hs]
    split_ifs
    · refine ⟨[NodeCall.Update OutputPort.PassThrough], ?_, by decide⟩
      split <;> simp
    · exact ⟨[], rfl, rfl⟩

/-- C10: `ProcessMRMLEvents` first forwards the event to the superclass and
then calls `UpdatePolyDataPipeline` exactly when the event is
`vtkCommand::ModifiedEvent`: the number of pipeline updates in the call log
grows by one for that event and by zero for every other event, for which the
forwarding is all the handler does. -/
theorem C10_process_mrml_events (vtk : VTK) (n : vtkMRMLModelDisplayNode) (event : Nat) :
    (ProcessMRMLEvents vtk n event).Calls.count NodeCall.UpdatePolyDataPipeline
      = n.Calls.count NodeCall.UpdatePolyDataPipeline
        + (if event = vtk.ModifiedEvent then 1 else 0) ∧
    (∃ rest : List NodeCall,
      (ProcessMRMLEvents vtk n event).Calls
        = n.Calls ++ NodeCall.SuperclassProcessMRMLEvents event :: rest ∧
      rest.head? = (if event = vtk.ModifiedEvent then some NodeCall.UpdatePolyDataPipeline
        else none)) ∧
    ProcessMRMLEvents vtk n event =
      (if event = vtk.ModifiedEvent then
        UpdatePolyDataPipeline vtk
          { n with Calls := n.Calls ++ [NodeCall.SuperclassProcessMRMLEvents event] }
       else { n with Calls := n.Calls ++ [NodeCall.SuperclassProcessMRMLEvents event] }) := by
  unfold ProcessMRMLEvents
  by_cases he : event = vtk.ModifiedEvent
  · simp only [if_pos he]
    obtain ⟨rest, hrest, hcount⟩ := UpdatePolyDataPipeline_Calls vtk
      { n with Calls := n.Calls ++ [NodeCall.SuperclassProcessMRMLEvents vtk.ModifiedEvent] }
    rw [← he] at hrest
    refine ⟨?_, ⟨NodeCall.UpdatePolyDataPipeline :: rest, ?_, rfl⟩, trivial⟩
    · rw [hrest]
      simp [List.count_append, List.count_cons, hcount]
    · rw [hrest]
      simp
  · simp only [if_neg he]
    refine ⟨?_, ⟨[], rfl, rfl⟩, trivial⟩
    simp [List.count_append, List.count_cons]

/-- Evaluation of `ProcessMRMLEvents` on the sample node: the modified event
(33 in the sample library) updates the pipeline and the scalar range, another
event only reaches the superclass. -/
theorem ProcessMRMLEvents_sample :
    (ProcessMRMLEvents sampleVTK sampleModelDisplayNode 33).Calls =
      [NodeCall.SuperclassProcessMRMLEvents 33, NodeCall.UpdatePolyDataPipeline,
       NodeCall.Update OutputPort.AssignAttribute] ∧
    (ProcessMRMLEvents sampleVTK sampleModelDisplayNode 33).ScalarRange = (-1, 1) ∧
    (ProcessMRMLEvents sampleVTK sampleModelDisplayNode 2).Calls =
      [NodeCall.SuperclassProcessMRMLEvents 2] ∧
    (ProcessMRMLEvents sampleVTK sampleModelDisplayNode 2).ScalarRange = (0, 100) :=
  ⟨rfl, rfl, rfl, rfl⟩

/-- The output poly data does not depend on the call log or the scalar range
of the node. -/
theorem GetOutputPolyData_congr (vtk : VTK) (n m : vtkMRMLModelDisplayNode)
    (h1 : m.ActiveScalarName = n.ActiveScalarName) (h2 : m.InputPolyData = n.InputPolyData)
    (h3 : m.AssignAttribute = n.AssignAttribute) :
    GetOutputPolyData vtk m = GetOutputPolyData vtk n := by
  unfold GetOutputPolyData GetOutputPolyDataConnection GetInputPolyData
  rw [h1, h2, h3]

/-- The members other than the `Assign` settings, the scalar range and the call
log are left alone by `UpdatePolyDataPipeline`, and the `Assign` settings are
the ones computed from the active scalar name and attribute location. -/
theorem UpdatePolyDataPipeline_members (vtk : VTK) (n : vtkMRMLModelDisplayNode) :
    (UpdatePolyDataPipeline vtk n).ActiveScalarName = n.ActiveScalarName ∧
    (UpdatePolyDataPipeline vtk n).InputPolyData = n.InputPolyData ∧
    (UpdatePolyDataPipeline vtk n).AutoScalarRange = n.AutoScalarRange ∧
    (UpdatePolyDataPipeline vtk n).AssignAttribute =
      ⟨n.ActiveScalarName, if n.ActiveScalarName ≠ none then vtk.SCALARS else -1,
       n.ActiveAttributeLocation⟩ := by
  unfold UpdatePolyDataPipeline
  simp only [GetOutputPolyDataConnection]
  by_cases hs : n.ActiveScalarName ≠ none
  · simp only [if_pos hs]
    split_ifs
    · split <;> exact ⟨rfl, rfl, rfl, rfl⟩
    · exact ⟨rfl, rfl, rfl, rfl⟩
  · simp only [if_neg hs]
    split_ifs
    · split <;> exact ⟨rfl, rfl, rfl, rfl⟩
    · exact ⟨rfl, rfl, rfl, rfl⟩

/-- The scalar range after `UpdatePolyDataPipeline`, in terms of the node with
the new `Assign` settings. -/
theorem UpdatePolyDataPipeline_ScalarRange (vtk : VTK) (n : vtkMRMLModelDisplayNode) :
    (UpdatePolyDataPipeline vtk n).ScalarRange =
      (if n.AutoScalarRange ≠ 0 then
        (match GetOutputPolyData vtk
            { n with AssignAttribute :=
                ⟨n.ActiveScalarName, if n.ActiveScalarName ≠ none then vtk.SCALARS else -1,
                 n.ActiveAttributeLocation⟩ } with
         | some output => output.ScalarRange
         | none => n.ScalarRange)
       else n.ScalarRange) := by
  have hc : ∀ c1 c2 : List NodeCall,
      GetOutputPolyData vtk
        { n with
          AssignAttribute :=
            ⟨n.ActiveScalarName, if n.ActiveScalarName ≠ none then vtk.SCALARS else -1,
             n.ActiveAttributeLocation⟩
          Calls := c1 } =
      GetOutputPolyData vtk
        { n with
          AssignAttribute :=
            ⟨n.ActiveScalarName, if n.ActiveScalarName ≠ none then vtk.SCALARS else -1,
             n.ActiveAttributeLocation⟩
          Calls := c2 } := fun _ _ => GetOutputPolyData_congr vtk _ _ rfl rfl rfl
  unfold UpdatePolyDataPipeline
  simp only [GetOutputPolyDataConnection]
  by_cases ha : n.AutoScalarRange ≠ 0
  · rw [if_pos ha]
    cases hout : GetOutputPolyData vtk
        { n with AssignAttribute :=
            ⟨n.ActiveScalarName, if n.ActiveScalarName ≠ none then vtk.SCALARS else -1,
             n.ActiveAttributeLocation⟩ } with
    | none =>
      have h0 := hc (n.Calls ++ [NodeCall.UpdatePolyDataPipeline]) n.Calls
      rw [hout] at h0
      rw [if_neg (by rw [h0]; simp)]
    | some output =>
      have h0 := hc (n.Calls ++ [NodeCall.UpdatePolyDataPipeline]) n.Calls
      rw [hout] at h0
      rw [if_pos ⟨ha, by rw [h0]; simp⟩]
      by_cases hs : n.ActiveScalarName ≠ none
      · simp only [if_pos hs]
        have h1 := hc (n.Calls ++ [NodeCall.UpdatePolyDataPipeline]
          ++ [NodeCall.Update OutputPort.AssignAttribute]) n.Calls
        simp only [if_pos hs] at h1 hout
        rw [hout] at h1
        rw [h1]
      · simp only [if_neg hs]
        have h1 := hc (n.Calls ++ [NodeCall.UpdatePolyDataPipeline]
          ++ [NodeCall.Update OutputPort.PassThrough]) n.Calls
        simp only [if_neg hs] at h1 hout
        rw [hout] at h1
        rw [h1]
  · rw [if_neg ha, if_neg (fun h => ha h.1)]

/-- C11: `UpdatePolyDataPipeline` gives `AssignAttribute` the active scalar
name, the attribute type `SCALARS` when that name is non-null and `-1` when it
is null, and the active attribute location.  Afterwards the scalar range of the
node is the scalar range of the output poly data exactly when `AutoScalarRange`
is on and `GetOutputPolyData()` is non-null, and is the old range otherwise.
`GetOutputPolyData()` is null for a node without input poly data, whose scalar
range is therefore kept. -/
theorem C11_update_poly_data_pipeline (vtk : VTK) (n : vtkMRMLModelDisplayNode) :
    (UpdatePolyDataPipeline vtk n).AssignAttribute =
      ⟨n.ActiveScalarName, if n.ActiveScalarName ≠ none then vtk.SCALARS else -1,
       n.ActiveAttributeLocation⟩ ∧
    (UpdatePolyDataPipeline vtk n).ScalarRange =
      (if n.AutoScalarRange ≠ 0 then
        (match GetOutputPolyData vtk (UpdatePolyDataPipeline vtk n) with
         | some output => output.ScalarRange
         | none => n.ScalarRange)
       else n.ScalarRange) ∧
    (n.InputPolyData = none →
      GetOutputPolyData vtk n = none ∧
      GetOutputPolyData vtk (UpdatePolyDataPipeline vtk n) = none ∧
      (UpdatePolyDataPipeline vtk n).ScalarRange = n.ScalarRange) := by
  obtain ⟨hname, hinput, _, hassign⟩ := UpdatePolyDataPipeline_members vtk n
  have hout : GetOutputPolyData vtk (UpdatePolyDataPipeline vtk n) =
      GetOutputPolyData vtk
        { n with AssignAttribute :=
            ⟨n.ActiveScalarName, if n.ActiveScalarName ≠ none then vtk.SCALARS else -1,
             n.ActiveAttributeLocation⟩ } :=
    GetOutputPolyData_congr vtk _ _ hname hinput hassign
  have hnull : ∀ m : vtkMRMLModelDisplayNode, m.InputPolyData = none →
      GetOutputPolyData vtk m = none := by
    intro m hm
    unfold GetOutputPolyData GetOutputPolyDataConnection GetInputPolyData
    rw [hm]
    split_ifs <;> rfl
  refine ⟨hassign, ?_, ?_⟩
  · rw [hout]
    exact UpdatePolyDataPipeline_ScalarRange vtk n
  · intro hn
    have h2 : GetOutputPolyData vtk (UpdatePolyDataPipeline vtk n) = none :=
      hnull _ (hinput.trans hn)
    refine ⟨hnull n hn, h2, ?_⟩
    rw [UpdatePolyDataPipeline_ScalarRange, ← hout, h2]
    split_ifs <;> rfl

/-- Witness for C11: the sample node without input keeps its scalar range
`(0, 100)` although `AutoScalarRange` is on, and the sample node with input
takes the range `(-1, 1)` of its output. -/
theorem C11_update_poly_data_pipeline_witness :
    sampleNodeWithoutInput.InputPolyData = none ∧
    (UpdatePolyDataPipeline sampleVTK sampleNodeWithoutInput).ScalarRange = (0, 100) ∧
    (UpdatePolyDataPipeline sampleVTK sampleModelDisplayNode).AssignAttribute
      = ⟨some "Curvature", 0, 0⟩ ∧
    (UpdatePolyDataPipeline sampleVTK sampleModelDisplayNode).ScalarRange = (-1, 1) :=
  ⟨rfl,
   ((C11_update_poly_data_pipeline sampleVTK sampleNodeWithoutInput).2.2 rfl).2.2,
   (C11_update_poly_data_pipeline sampleVTK sampleModelDisplayNode).1.trans rfl,
   rfl⟩

/-- In every action state `OnMouseMove` leaves the data members of the style as
they are. -/
theorem OnMouseMove_Style (E : ActionStateEnum) (w : World) :
    (OnMouseMove E w).Style = w.Style := by
  unfold OnMouseMove
  simp only [gt_iff_lt]
  split_ifs <;> rfl

/-- C20: `OnMouseMove` touches only the quantity of the active mode.  In
`Translate` state the field of view and both opacities keep their values, in
`Zoom` state the slice origin and both opacities, in `Blend` state the slice
origin and the field of view; in every state the action state, the recorded
start window, the recorded start field of view and the recorded start
opacities keep their values. -/
theorem C20_mouse_move_frame (E : ActionStateEnum) (w : World) :
    (w.Style.ActionState = E.Translate →
      (OnMouseMove E w).SliceLogic.SliceNode.FieldOfView = w.SliceLogic.SliceNode.FieldOfView ∧
      (OnMouseMove E w).SliceLogic.SliceCompositeNode.ForegroundOpacity
        = w.SliceLogic.SliceCompositeNode.ForegroundOpacity ∧
      (OnMouseMove E w).SliceLogic.SliceCompositeNode.LabelOpacity
        = w.SliceLogic.SliceCompositeNode.LabelOpacity) ∧
    (w.Style.ActionState = E.Zoom →
      (OnMouseMove E w).SliceLogic.SliceNode.SliceOrigin = w.SliceLogic.SliceNode.SliceOrigin ∧
      (OnMouseMove E w).SliceLogic.SliceCompositeNode.ForegroundOpacity
        = w.SliceLogic.SliceCompositeNode.ForegroundOpacity ∧
      (OnMouseMove E w).SliceLogic.SliceCompositeNode.LabelOpacity
        = w.SliceLogic.SliceCompositeNode.LabelOpacity) ∧
    (w.Style.ActionState = E.Blend →
      (OnMouseMove E w).SliceLogic.SliceNode.SliceOrigin = w.SliceLogic.SliceNode.SliceOrigin ∧
      (OnMouseMove E w).SliceLogic.SliceNode.FieldOfView = w.SliceLogic.SliceNode.FieldOfView) ∧
    (OnMouseMove E w).Style.ActionState = w.Style.ActionState ∧
    (OnMouseMove E w).Style.ActionStartWindow = w.Style.ActionStartWindow ∧
    (OnMouseMove E w).Style.ActionStartFOV = w.Style.ActionStartFOV ∧
    (OnMouseMove E w).Style.ActionStartForegroundOpacity
      = w.Style.ActionStartForegroundOpacity ∧
    (OnMouseMove E w).Style.ActionStartLabelOpacity = w.Style.ActionStartLabelOpacity := by
  obtain ⟨hTZ, hTB, hZB⟩ := E.labels_distinct
  have hS := OnMouseMove_Style E w
  refine ⟨?_, ?_, ?_, by rw [hS], by rw [hS], by rw [hS], by rw [hS], by rw [hS]⟩
  · intro ht
    unfold OnMouseMove
    rw [if_pos ht]
    exact ⟨rfl, rfl, rfl⟩
  · intro hz
    have h1 : ¬ w.Style.ActionState = E.Translate := fun h => hTZ (h.symm.trans hz)
    unfold OnMouseMove
    rw [if_neg h1, if_pos hz]
    simp only [gt_iff_lt]
    split_ifs <;> exact ⟨rfl, rfl, rfl⟩
  · intro hb
    have h1 : ¬ w.Style.ActionState = E.Translate := fun h => hTB (h.symm.trans hb)
    have h2 : ¬ w.Style.ActionState = E.Zoom := fun h => hZB (h.symm.trans hb)
    unfold OnMouseMove
    rw [if_neg h1, if_neg h2, if_pos hb]
    by_cases hf : w.SliceLogic.SliceCompositeNode.ForegroundVolumeID ≠ none <;>
    by_cases hl : w.SliceLogic.SliceCompositeNode.LabelVolumeID ≠ none <;>
    simp [hf, hl, call, SetForegroundOpacity, SetLabelOpacity]

/-- Witness for C20 at the sample worlds in `Translate`, `Zoom` and `Blend`
state. -/
theorem C20_mouse_move_frame_witness :
    (OnMouseMove sampleEnum (sampleWorld sampleEnum.Translate)).SliceLogic.SliceNode.FieldOfView
      = ⟨250, 200, 1⟩ ∧
    (OnMouseMove sampleEnum (sampleWorld sampleEnum.Zoom)).SliceLogic.SliceNode.SliceOrigin
      = ⟨0, 0, 0⟩ ∧
    (OnMouseMove sampleEnum (sampleWorld sampleEnum.Blend)).SliceLogic.SliceNode.FieldOfView
      = ⟨250, 200, 1⟩ :=
  ⟨((C20_mouse_move_frame sampleEnum (sampleWorld sampleEnum.Translate)).1 rfl).1.trans rfl,
   ((C20_mouse_move_frame sampleEnum (sampleWorld sampleEnum.Zoom)).2.1 rfl).1.trans rfl,
   ((C20_mouse_move_frame sampleEnum (sampleWorld sampleEnum.Blend)).2.2.1 rfl).2.trans rfl⟩

open qSlicerApplication

/-- C18: `handleCommandLineArguments` disables all registered message handlers
exactly when the options report `noMainWindow` or `disableMessageHandlers`, and
in every case ends by setting the trapped flag of the tool tip trapper to
`disableToolTips`, that is tool tips enabled to its negation. -/
theorem C18_handle_command_line_arguments (app : qSlicerApplication) :
    (handleCommandLineArguments app).Calls =
      app.Calls
        ++ (if app.commandOptions.noMainWindow = true
              ∨ app.commandOptions.disableMessageHandlers = true
            then [ApplicationCall.disableAllMsgHandler] else [])
        ++ [ApplicationCall.SuperclassHandleCommandLineArguments,
            ApplicationCall.setToolTipsTrapped app.commandOptions.disableToolTips] ∧
    (handleCommandLineArguments app).MsgHandlerEnabled =
      (if app.commandOptions.noMainWindow = true
          ∨ app.commandOptions.disableMessageHandlers = true
       then app.MsgHandlerEnabled.map (fun h => (h.1, false))
       else app.MsgHandlerEnabled) ∧
    (handleCommandLineArguments app).ToolTipsTrapped = app.commandOptions.disableToolTips ∧
    (handleCommandLineArguments app).Calls.count ApplicationCall.disableAllMsgHandler =
      app.Calls.count ApplicationCall.disableAllMsgHandler
        + (if app.commandOptions.noMainWindow = true
              ∨ app.commandOptions.disableMessageHandlers = true
           then 1 else 0) := by
  unfold handleCommandLineArguments setToolTipsEnabled disableAllMsgHandler
  cases h1 : app.commandOptions.noMainWindow <;>
  cases h2 : app.commandOptions.disableMessageHandlers <;>
  simp [h1, h2, List.count_append, List.count_cons]

/-- Evaluation of `handleCommandLineArguments` on the sample application with
`disableMessageHandlers` and `disableToolTips` set. -/
theorem handleCommandLineArguments_sample :
    (handleCommandLineArguments (sampleApplication ⟨false, true, true⟩)).MsgHandlerEnabled
      = [("Qt", false), ("VTK", false)] ∧
    (handleCommandLineArguments (sampleApplication ⟨false, true, true⟩)).ToolTipsTrapped = true ∧
    (handleCommandLineArguments (sampleApplication ⟨false, false, false⟩)).MsgHandlerEnabled
      = [("Qt", true), ("VTK", true)] ∧
    (handleCommandLineArguments (sampleApplication ⟨false, false, false⟩)).Calls
      = [ApplicationCall.SuperclassHandleCommandLineArguments,
         ApplicationCall.setToolTipsTrapped false] := by
  decide

open vtkMRMLTransformNode

/-- The value of `IsTransformToWorldLinear` is 0 or 1. -/
theorem IsTransformToWorldLinear_zero_or_one (n : vtkMRMLTransformNode) :
    IsTransformToWorldLinear n = 0 ∨ IsTransformToWorldLinear n = 1 := by
  induction n with
  | top l => cases l <;> simp [IsTransformToWorldLinear, IsLinear]
  | child l p ih => cases l <;> simp [IsTransformToWorldLinear, IsLinear, ih]

/-- The value of `IsTransformToWorldLinear` is 1 exactly when the node and all
its ancestors are linear. -/
theorem IsTransformToWorldLinear_eq_one_iff (n : vtkMRMLTransformNode) :
    IsTransformToWorldLinear n = 1 ↔ ∀ m ∈ nodesToTop n, IsLinear m = 1 := by
  induction n with
  | top l => cases l <;> simp [IsTransformToWorldLinear, IsLinear, nodesToTop]
  | child l p ih => cases l <;> simp [IsTransformToWorldLinear, IsLinear, nodesToTop, ih]

/-- C19: `IsTransformToWorldLinear` returns 1 if this node and every ancestor
transform node up to the top of the hierarchy has `IsLinear() = 1`, and 0
otherwise. -/
theorem C19_is_transform_to_world_linear (n : vtkMRMLTransformNode) :
    ((∀ m ∈ nodesToTop n, IsLinear m = 1) → IsTransformToWorldLinear n = 1) ∧
    (¬ (∀ m ∈ nodesToTop n, IsLinear m = 1) → IsTransformToWorldLinear n = 0) := by
  refine ⟨(IsTransformToWorldLinear_eq_one_iff n).2, ?_⟩
  intro h
  rcases IsTransformToWorldLinear_zero_or_one n with h0 | h1
  · exact h0
  · exact absurd ((IsTransformToWorldLinear_eq_one_iff n).1 h1) h

/-- Witness for C19: a linear node under a linear parent under a linear top
gives 1; the same chain with a non-linear parent gives 0. -/
theorem C19_is_transform_to_world_linear_witness :
    IsTransformToWorldLinear (child true (child true (top true))) = 1 ∧
    IsTransformToWorldLinear (child true (child false (top true))) = 0 :=
  ⟨(C19_is_transform_to_world_linear (child true (child true (top true)))).1 (by decide),
   (C19_is_transform_to_world_linear (child true (child false (top true)))).2 (by decide)⟩

open vtkMRMLApplicationLogic

/-- The `readdir` loop leaves `filesVector` as it was and appends to
`filesToLoad` the joined paths of the entries whose detected type is text. -/
theorem foldl_checkDirectoryEntry {FS : Type} (K : SystemTools FS) (fs : FS) (dir : String)
    (entries : List String) (filesToLoad : List String) :
    entries.foldl (checkDirectoryEntry K fs) ([dir, "/"], filesToLoad) =
      ([dir, "/"], filesToLoad ++
        (entries.map (fun name => K.JoinPath [dir, "/", name])).filter
          (fun file => K.DetectFileType fs file = K.FileTypeText)) := by
  induction entries generalizing filesToLoad with
  | nil => simp
  | cons name rest ih =>
    rw [List.foldl_cons]
    have hstep : checkDirectoryEntry K fs ([dir, "/"], filesToLoad) name =
        ([dir, "/"],
          if K.DetectFileType fs (K.JoinPath [dir, "/", name]) = K.FileTypeText then
            filesToLoad ++ [K.JoinPath [dir, "/", name]]
          else filesToLoad) := by
      simp [checkDirectoryEntry]
    rw [hstep, ih]
    by_cases ht : K.DetectFileType fs (K.JoinPath [dir, "/", name]) = K.FileTypeText
    · simp [ht, List.filter_cons]
    · simp [ht, List.filter_cons]

/-- One round of the loop over the directories appends the text files of the
directory. -/
theorem checkDirectory_eq {FS : Type} (K : SystemTools FS) (fs : FS)
    (filesToLoad : List String) (dir : String) :
    checkDirectory K fs filesToLoad dir = filesToLoad ++ textFilesOfDirectory K fs dir := by
  unfold checkDirectory textFilesOfDirectory
  cases K.opendir fs dir with
  | none => simp
  | some entries => simp only [foldl_checkDirectoryEntry]

/-- The loop over the directories appends the parameter set files of all the
directories. -/
theorem foldl_checkDirectory {FS : Type} (K : SystemTools FS) (fs : FS)
    (directories : List String) (filesToLoad : List String) :
    directories.foldl (checkDirectory K fs) filesToLoad =
      filesToLoad ++ parameterSetFiles K fs directories := by
  induction directories generalizing filesToLoad with
  | nil => simp [parameterSetFiles]
  | cons dir rest ih =>
    rw [List.foldl_cons, ih, checkDirectory_eq]
    simp [parameterSetFiles, List.flatMap_cons, List.append_assoc]

/-- The loop over the files to load sets the URL and imports once per file. -/
theorem foldl_import_Calls (importScene : vtkMRMLScene → vtkMRMLScene)
    (files : List String) (w : SceneWorld) :
    (files.foldl (fun w fit => vtkMRMLScene.Import importScene (vtkMRMLScene.SetURL fit w))
      w).Calls =
      w.Calls ++ files.flatMap (fun file => [SceneCall.SetURL file, SceneCall.Import]) := by
  induction files generalizing w with
  | nil => simp
  | cons file rest ih =>
    rw [List.foldl_cons, ih]
    simp [vtkMRMLScene.Import, vtkMRMLScene.SetURL, List.flatMap_cons, List.append_assoc]

/-- The number of text files of a directory, counted on its entries. -/
theorem length_textFilesOfDirectory {FS : Type} (K : SystemTools FS) (fs : FS) (dir : String) :
    (textFilesOfDirectory K fs dir).length =
      (match K.opendir fs dir with
       | none => 0
       | some entries => entries.countP
          (fun name => K.DetectFileType fs (K.JoinPath [dir, "/", name]) = K.FileTypeText)) := by
  unfold textFilesOfDirectory
  cases K.opendir fs dir with
  | none => rfl
  | some entries =>
    simp only [List.countP_eq_length_filter, List.filter_map, List.length_map]
    rfl

/-- C12: `LoadDefaultParameterSets` restores the URL and the root directory of
the scene: for every scene, every list of directories and every behaviour of
`Import`, they are after the call what they were before it. -/
theorem C12_load_restores_url_and_root {FS : Type} (K : SystemTools FS)
    (importScene : FS → vtkMRMLScene → vtkMRMLScene) (fs : FS)
    (scene : SceneWorld) (directories : List String) :
    (LoadDefaultParameterSets K importScene fs scene directories).World.Scene.URL
      = scene.Scene.URL ∧
    (LoadDefaultParameterSets K importScene fs scene directories).World.Scene.RootDirectory
      = scene.Scene.RootDirectory :=
  ⟨rfl, rfl⟩

/-- C13: `LoadDefaultParameterSets` returns the number of parameter sets it
loads: the number of entries, over the directories that can be opened and in the
given order, whose joined path has detected type text.  For each such file, in
that order, the URL of the scene is set to the joined path and the scene is
imported, once; then URL and root directory are set back.  A directory that
cannot be opened contributes nothing and leaves the count of the others as it
is, and the empty list of directories gives 0. -/
theorem C13_load_count {FS : Type} (K : SystemTools FS)
    (importScene : FS → vtkMRMLScene → vtkMRMLScene) (fs : FS)
    (scene : SceneWorld) (directories : List String) :
    (LoadDefaultParameterSets K importScene fs scene directories).Count =
      (((directories.map (fun dir =>
          match K.opendir fs dir with
          | none => 0
          | some entries => entries.countP (fun name =>
              K.DetectFileType fs (K.JoinPath [dir, "/", name]) = K.FileTypeText))).sum : Nat)
        : Int) ∧
    (LoadDefaultParameterSets K importScene fs scene directories).Count =
      ((parameterSetFiles K fs directories).length : Int) ∧
    (LoadDefaultParameterSets K importScene fs scene directories).World.Calls =
      scene.Calls
        ++ (parameterSetFiles K fs directories).flatMap
            (fun file => [SceneCall.SetURL file, SceneCall.Import])
        ++ [SceneCall.SetURL scene.Scene.URL,
            SceneCall.SetRootDirectory scene.Scene.RootDirectory] ∧
    (((LoadDefaultParameterSets K importScene fs scene directories).World.Calls.count
        SceneCall.Import : Nat) : Int) =
      (scene.Calls.count SceneCall.Import : Int)
        + (LoadDefaultParameterSets K importScene fs scene directories).Count ∧
    (∀ (before after : List String) (dir : String), K.opendir fs dir = none →
      (LoadDefaultParameterSets K importScene fs scene (before ++ dir :: after)).Count =
        (LoadDefaultParameterSets K importScene fs scene (before ++ after)).Count) ∧
    (LoadDefaultParameterSets K importScene fs scene []).Count = 0 := by
  have hfiles : ∀ dirs : List String,
      dirs.foldl (checkDirectory K fs) [] = parameterSetFiles K fs dirs := by
    intro dirs
    rw [foldl_checkDirectory]
    simp
  have hcount : ∀ dirs : List String,
      (LoadDefaultParameterSets K importScene fs scene dirs).Count =
        ((parameterSetFiles K fs dirs).length : Int) := by
    intro dirs
    unfold LoadDefaultParameterSets
    simp only [hfiles]
  have hcalls : (LoadDefaultParameterSets K importScene fs scene directories).World.Calls =
      scene.Calls
        ++ (parameterSetFiles K fs directories).flatMap
            (fun file => [SceneCall.SetURL file, SceneCall.Import])
        ++ [SceneCall.SetURL scene.Scene.URL,
            SceneCall.SetRootDirectory scene.Scene.RootDirectory] := by
    have hloop := foldl_import_Calls (importScene fs) (parameterSetFiles K fs directories) scene
    unfold LoadDefaultParameterSets
    simp only [hfiles, vtkMRMLScene.SetRootDirectory, vtkMRMLScene.SetURL] at hloop ⊢
    rw [hloop]
    simp only [List.append_assoc, List.cons_append, List.nil_append]
  have himports : ∀ files : List String,
      (files.flatMap (fun file => [SceneCall.SetURL file, SceneCall.Import])).count
        SceneCall.Import = files.length := by
    intro files
    induction files with
    | nil => rfl
    | cons file rest ih =>
      rw [List.flatMap_cons, List.count_append, ih]
      simp [List.count_cons, Nat.add_comm]
  refine ⟨?_, hcount directories, hcalls, ?_, ?_, ?_⟩
  · rw [hcount]
    unfold parameterSetFiles
    rw [List.length_flatMap]
    congr 2
    apply List.map_congr_left
    intro dir _
    exact length_textFilesOfDirectory K fs dir
  · rw [hcalls, hcount]
    simp only [List.count_append, himports]
    simp [List.count_cons]
  · intro before after dir hdir
    rw [hcount, hcount]
    unfold parameterSetFiles
    have hnil : textFilesOfDirectory K fs dir = [] := by
      unfold textFilesOfDirectory
      rw [hdir]
    simp [List.flatMap_append, List.flatMap_cons, hnil]
  · rw [hcount]
    rfl

/-- Witness for C13: of the directories `/missing` (cannot be opened) and
`/presets` (entries `.`, `..`, `a.mrml`, `b.png`), one text file is loaded. -/
theorem C13_load_count_witness :
    sampleSystemTools.opendir sampleFS "/missing" = none ∧
    (LoadDefaultParameterSets sampleSystemTools sampleImport sampleFS ⟨sampleScene, []⟩
      ["/missing", "/presets"]).Count = 1 ∧
    (LoadDefaultParameterSets sampleSystemTools sampleImport sampleFS ⟨sampleScene, []⟩
      ["/missing", "/presets"]).World.Calls =
      [SceneCall.SetURL "/presets//a.mrml", SceneCall.Import,
       SceneCall.SetURL "/home/user/scene.mrml", SceneCall.SetRootDirectory "/home/user"] :=
  ⟨by decide,
   ((C13_load_count sampleSystemTools sampleImport sampleFS ⟨sampleScene, []⟩
      ["/missing", "/presets"]).2.2.2.2.1 [] ["/presets"] "/missing" (by decide)).trans
     (by decide),
   (C13_load_count sampleSystemTools sampleImport sampleFS ⟨sampleScene, []⟩
      ["/missing", "/presets"]).2.2.1.trans (by decide)⟩

/-- C14: `SaveSceneToSlicerDataBundleDirectory` returns `NULL` and leaves the
logic, its file system and its call log as they were (no directory is removed
or created and nothing is written) whenever the logic has no MRML scene, or
`sdbDir` is null, or `sdbDir` is not a full path, or `sdbDir` is not an existing
directory. -/
theorem C14_save_invalid_input {FS : Type} (K : SystemTools FS) (M : MRMLCore FS) (fuel : Nat)
    (this : vtkMRMLApplicationLogic FS) (sdbDir : Option String)
    (screenShot : Option vtkImageData)
    (h : this.MRMLScene = none ∨ sdbDir = none ∨
      ∃ dir, sdbDir = some dir ∧
        (K.FileIsFullPath dir = false ∨ K.FileIsDirectory this.FileSystem dir = false)) :
    SaveSceneToSlicerDataBundleDirectory K M fuel this sdbDir screenShot =
      { Returned := some none, Logic := this } := by
  have hprep : prepareBundleDirectories K this sdbDir = (none, this) := by
    unfold prepareBundleDirectories
    cases hs : this.MRMLScene with
    | none => rfl
    | some scene =>
      cases hd : sdbDir with
      | none => rfl
      | some dir =>
        rcases h with h | h | ⟨dir1, h1, h2⟩
        · rw [hs] at h
          cases h
        · rw [hd] at h
          cases h
        · rw [hd] at h1
          cases h1
          rcases h2 with h2 | h2
          · simp only [h2, if_true]
          · by_cases h3 : K.FileIsFullPath dir = false
            · simp only [h3, if_true]
            · simp [h3, h2]
  unfold SaveSceneToSlicerDataBundleDirectory
  rw [hprep]

/-- Witness for C14: a relative path, and a full path that is not a directory
of the sample file system. -/
theorem C14_save_invalid_input_witness :
    (SaveSceneToSlicerDataBundleDirectory sampleSystemTools sampleMRML 10 sampleLogic
      (some "bundle") none).Returned = some none ∧
    (SaveSceneToSlicerDataBundleDirectory sampleSystemTools sampleMRML 10 sampleLogic
      (some "/tmp/nothing") none).Logic.Calls = [] :=
  ⟨congrArg BundleResult.Returned
     (C14_save_invalid_input sampleSystemTools sampleMRML 10 sampleLogic (some "bundle") none
       (Or.inr (Or.inr ⟨"bundle", rfl, Or.inl (by decide)⟩))),
   congrArg (fun r => r.Logic.Calls)
     (C14_save_invalid_input sampleSystemTools sampleMRML 10 sampleLogic (some "/tmp/nothing")
       none (Or.inr (Or.inr ⟨"/tmp/nothing", rfl, Or.inr (by decide)⟩)))⟩

/-- The first part of `SaveSceneToSlicerDataBundleDirectory` does not touch the
MRML scene of the logic. -/
theorem prepareBundleDirectories_MRMLScene {FS : Type} (K : SystemTools FS)
    (this : vtkMRMLApplicationLogic FS) (sdbDir : Option String) :
    (prepareBundleDirectories K this sdbDir).2.MRMLScene = this.MRMLScene := by
  have h1 : ∀ (logic : vtkMRMLApplicationLogic FS) (dir : String),
      (removeExistingDirectory K logic dir).2.MRMLScene = logic.MRMLScene := by
    intro logic dir
    unfold removeExistingDirectory
    split_ifs <;> rfl
  have h2 : ∀ (logic : vtkMRMLApplicationLogic FS) (dir : String),
      (makeMissingDirectory K logic dir).2.MRMLScene = logic.MRMLScene := by
    intro logic dir
    unfold makeMissingDirectory
    split_ifs <;> rfl
  unfold prepareBundleDirectories
  split
  · rfl
  · split
    · rfl
    · simp only []
      split_ifs
      · rfl
      · rfl
      · rw [h1]
      · rw [h2, h1]
      · rw [h2, h2, h1]
      · rw [h2, h2, h1]

/-- Writing through a storage node does not touch the MRML scene of the logic
and only appends to the call log. -/
theorem writeStorageNode_frame {FS : Type} (K : SystemTools FS) (M : MRMLCore FS) (fuel : Nat)
    (dataDir : String) (index position : Nat) (st : BundleState FS) :
    (writeStorageNode K M fuel dataDir index position st).Logic.MRMLScene
      = st.Logic.MRMLScene ∧
    ∃ rest, (writeStorageNode K M fuel dataDir index position st).Logic.Calls
      = st.Logic.Calls ++ rest := by
  unfold writeStorageNode
  simp only []
  split
  · split
    · exact ⟨rfl, [], by simp⟩
    · exact ⟨rfl, _, rfl⟩
  · exact ⟨rfl, [], by simp⟩

/-- The storage node lookup and creation does not touch the logic. -/
theorem storageNodeOfCopy_Logic {FS : Type} (M : MRMLCore FS) (st : BundleState FS)
    (index : Nat) (storableNode : vtkMRMLNode) :
    (storageNodeOfCopy M st index storableNode).2.Logic = st.Logic := by
  unfold storageNodeOfCopy
  split
  · rfl
  · split <;> rfl

/-- One round of the loop over the nodes does not touch the MRML scene of the
logic and only appends to the call log. -/
theorem copyNodeToBundle_frame {FS : Type} (K : SystemTools FS) (M : MRMLCore FS) (fuel : Nat)
    (dataDir : String) (i : Nat) (mrmlNode : vtkMRMLNode) (st : BundleState FS) :
    (copyNodeToBundle K M fuel dataDir i mrmlNode st).Logic.MRMLScene = st.Logic.MRMLScene ∧
    ∃ rest, (copyNodeToBundle K M fuel dataDir i mrmlNode st).Logic.Calls
      = st.Logic.Calls ++ rest := by
  unfold copyNodeToBundle
  simp only []
  split
  · exact ⟨rfl, _, rfl⟩
  · split_ifs
    · split
      · rename_i st3 hst
        have h := congrArg (fun r : Option Nat × BundleState FS => r.2.Logic) hst
        simp only [storageNodeOfCopy_Logic] at h
        rw [← h]
        exact ⟨rfl, _, rfl⟩
      · rename_i position st3 hst
        have h := congrArg (fun r : Option Nat × BundleState FS => r.2.Logic) hst
        simp only [storageNodeOfCopy_Logic] at h
        obtain ⟨h1, rest, h2⟩ := writeStorageNode_frame K M fuel dataDir
          (st.sdbScene.Nodes.length) position st3
        rw [h1, h2, ← h]
        exact ⟨rfl, [BundleCall.CopyNode i] ++ rest, by simp [logCall]⟩
    · exact ⟨rfl, _, rfl⟩

/-- The loop over the nodes does not touch the MRML scene of the logic and only
appends to the call log. -/
theorem copyNodesLoop_frame {FS : Type} (K : SystemTools FS) (M : MRMLCore FS) (fuel : Nat)
    (dataDir : String) (remaining i : Nat) (st : BundleState FS) :
    (copyNodesLoop K M fuel dataDir remaining i st).Logic.MRMLScene = st.Logic.MRMLScene ∧
    ∃ rest, (copyNodesLoop K M fuel dataDir remaining i st).Logic.Calls
      = st.Logic.Calls ++ rest := by
  induction remaining generalizing i st with
  | zero => exact ⟨rfl, [], by simp [copyNodesLoop]⟩
  | succ k ih =>
    unfold copyNodesLoop
    split_ifs
    · exact ⟨rfl, [], by simp⟩
    · split
      · exact ⟨rfl, [], by simp⟩
      · rename_i mrmlNode _
        obtain ⟨h1, r1, h2⟩ := copyNodeToBundle_frame K M fuel dataDir i mrmlNode st
        obtain ⟨h3, r2, h4⟩ := ih (i + 1) (copyNodeToBundle K M fuel dataDir i mrmlNode st)
        exact ⟨h3.trans h1, r1 ++ r2, by rw [h4, h2, List.append_assoc]⟩

/-- The last part of `SaveSceneToSlicerDataBundleDirectory` does not touch the
MRML scene of the logic and only appends to the call log. -/
theorem saveSceneViewAndCommit_frame {FS : Type} (M : MRMLCore FS)
    (screenShot : Option vtkImageData) (st : BundleState FS) :
    (saveSceneViewAndCommit M screenShot st).Logic.MRMLScene = st.Logic.MRMLScene ∧
    ∃ rest, (saveSceneViewAndCommit M screenShot st).Logic.Calls = st.Logic.Calls ++ rest :=
  ⟨rfl, _, List.append_assoc st.Logic.Calls [_] [_]⟩

/-- What `SaveSceneToSlicerDataBundleDirectory` does after its first part. -/
theorem SaveScene_of_prepare {FS : Type} (K : SystemTools FS) (M : MRMLCore FS) (fuel : Nat)
    (this : vtkMRMLApplicationLogic FS) (sdbDir : Option String)
    (screenShot : Option vtkImageData) :
    ((prepareBundleDirectories K this sdbDir).1 = none →
      SaveSceneToSlicerDataBundleDirectory K M fuel this sdbDir screenShot =
        { Returned := some none, Logic := (prepareBundleDirectories K this sdbDir).2 }) ∧
    (SaveSceneToSlicerDataBundleDirectory K M fuel this sdbDir screenShot).Logic.MRMLScene
      = this.MRMLScene ∧
    ∃ rest, (SaveSceneToSlicerDataBundleDirectory K M fuel this sdbDir screenShot).Logic.Calls
      = (prepareBundleDirectories K this sdbDir).2.Calls ++ rest := by
  have hscene := prepareBundleDirectories_MRMLScene K this sdbDir
  unfold SaveSceneToSlicerDataBundleDirectory
  rcases hp : prepareBundleDirectories K this sdbDir with ⟨_ | ⟨dataDir, sdbScene⟩, logic⟩
  · rw [hp] at hscene
    refine ⟨fun _ => rfl, hscene, ⟨[], ?_⟩⟩
    simp
  · rw [hp] at hscene
    refine ⟨fun h => (by cases h), ?_⟩
    simp only []
    obtain ⟨h1, r1, h2⟩ := copyNodesLoop_frame K M fuel dataDir
      (match logic.MRMLScene with
        | some scene => scene.Nodes.length
        | none => 0) 0 { Logic := logic, sdbScene := sdbScene, OutOfFuel := false }
    split_ifs
    · exact ⟨h1.trans hscene, r1, h2⟩
    · obtain ⟨h3, r2, h4⟩ := saveSceneViewAndCommit_frame M screenShot
        (copyNodesLoop K M fuel dataDir
          (match logic.MRMLScene with
            | some scene => scene.Nodes.length
            | none => 0) 0 { Logic := logic, sdbScene := sdbScene, OutOfFuel := false })
      exact ⟨(h3.trans h1).trans hscene, r1 ++ r2, by rw [h4, h2, List.append_assoc]⟩

/-- C16: `SaveSceneToSlicerDataBundleDirectory` works on a copy: for every call,
whatever it returns and whether or not its search loops end, the MRML scene of
the logic (its nodes with their attributes, storage node IDs and file names,
its URL and its root directory) is after the call what it was before; the new
storage nodes, data directories and file names belong to the new scene. -/
theorem C16_save_keeps_current_scene {FS : Type} (K : SystemTools FS) (M : MRMLCore FS)
    (fuel : Nat) (this : vtkMRMLApplicationLogic FS) (sdbDir : Option String)
    (screenShot : Option vtkImageData) :
    (SaveSceneToSlicerDataBundleDirectory K M fuel this sdbDir screenShot).Logic.MRMLScene
      = this.MRMLScene :=
  (SaveScene_of_prepare K M fuel this sdbDir screenShot).2.1

/-- Evaluation of `SaveSceneToSlicerDataBundleDirectory` on the sample logic:
the bundle is written, the URL of the new scene is returned and the current
scene is the sample scene as before. -/
theorem SaveScene_sample :
    (SaveSceneToSlicerDataBundleDirectory sampleSystemTools sampleMRML 10 sampleLogic
      (some "/tmp/bundle") none).Returned = some (some "/tmp/bundle/bundle.mrml") ∧
    (SaveSceneToSlicerDataBundleDirectory sampleSystemTools sampleMRML 10 sampleLogic
      (some "/tmp/bundle") none).Logic.Calls =
      [BundleCall.RemoveADirectory "/tmp/bundle", BundleCall.MakeDirectory "/tmp/bundle",
       BundleCall.MakeDirectory "/tmp/bundle/Data", BundleCall.CopyNode 0,
       BundleCall.WriteData (some "vol2.nrrd"),
       BundleCall.WriteData (some "Slicer Data Bundle Scene View.png"),
       BundleCall.Commit "/tmp/bundle/bundle.mrml"] ∧
    (SaveSceneToSlicerDataBundleDirectory sampleSystemTools sampleMRML 10 sampleLogic
      (some "/tmp/bundle") none).Logic.MRMLScene = some sampleScene := by
  decide

/-- The search loop started at the counter value `s` ends at `v0` when the
names for the values from `s` up to `v0` exist, the name for `v0` does not, and
more than `v0 - s` rounds are allowed. -/
theorem uniqueFileNameLoop_least {FS : Type} (K : SystemTools FS) (fs : FS)
    (baseName ext : String) (v0 : Nat)
    (hfree : K.FileExists fs (baseName ++ toString (v0 : Int) ++ ext) false = false) :
    ∀ (d s fuel : Nat), s + d = v0 →
      (∀ u : Nat, s ≤ u → u < v0 →
        K.FileExists fs (baseName ++ toString (u : Int) ++ ext) false = true) →
      d < fuel →
      uniqueFileNameLoop K fs baseName ext fuel (s : Int)
        = some (baseName ++ toString (v0 : Int) ++ ext) := by
  intro d
  induction d with
  | zero =>
    intro s fuel hs _ hfuel
    obtain ⟨f, rfl⟩ : ∃ f, fuel = f + 1 := ⟨fuel - 1, by omega⟩
    have hs0 : s = v0 := by omega
    subst hs0
    unfold uniqueFileNameLoop
    simp only [hfree, if_true]
  | succ d ih =>
    intro s fuel hs hexist hfuel
    obtain ⟨f, rfl⟩ : ∃ f, fuel = f + 1 := ⟨fuel - 1, by omega⟩
    have h1 : K.FileExists fs (baseName ++ toString (s : Int) ++ ext) false = true :=
      hexist s (le_refl s) (by omega)
    unfold uniqueFileNameLoop
    have hcast : ((s : Int) + 1) = ((s + 1 : Nat) : Int) := by push_cast; rfl
    simp only [h1, Bool.true_eq_false, if_false, hcast]
    exact ih (s + 1) f (by omega) (fun u hu hlt => hexist u (by omega) hlt) (by omega)

/-- C17: when the file of a storage node exists already and some `v ≥ 1` exists
for which no file named `baseName + decimal(v) + ext` exists, there is a least
such `v`; with at least that many rounds the search loop ends, and the block
sets the file name of the storage node to `baseName + decimal(v) + ext` for
the least `v`, a name that no existing file has.  Here `baseName` and `ext`
are the file name without extension and the extension of the old file name. -/
theorem C17_unique_file_name {FS : Type} (K : SystemTools FS) (fs : FS)
    (snode : vtkMRMLNode) (fileName : String)
    (hname : snode.FileName = some fileName)
    (hexists : K.FileExists fs fileName true = true)
    (hsome : ∃ v : Nat, 1 ≤ v ∧
      K.FileExists fs (K.GetFilenameWithoutExtension fileName ++ toString (v : Int)
        ++ K.GetFilenameExtension fileName) false = false) :
    ∃ v0 : Nat, 1 ≤ v0 ∧
      K.FileExists fs (K.GetFilenameWithoutExtension fileName ++ toString (v0 : Int)
        ++ K.GetFilenameExtension fileName) false = false ∧
      (∀ u : Nat, 1 ≤ u → u < v0 →
        K.FileExists fs (K.GetFilenameWithoutExtension fileName ++ toString (u : Int)
          ++ K.GetFilenameExtension fileName) false = true) ∧
      ∀ fuel : Nat, v0 ≤ fuel →
        uniqueFileNameLoop K fs (K.GetFilenameWithoutExtension fileName)
            (K.GetFilenameExtension fileName) fuel 1
          = some (K.GetFilenameWithoutExtension fileName ++ toString (v0 : Int)
              ++ K.GetFilenameExtension fileName) ∧
        dealWithExistingFile K fs fuel snode
          = some { snode with
              FileName := some (K.GetFilenameWithoutExtension fileName ++ toString (v0 : Int)
                ++ K.GetFilenameExtension fileName) } := by
  classical
  have hfind := Nat.find_spec hsome
  have hmin : ∀ u : Nat, 1 ≤ u → u < Nat.find hsome →
      K.FileExists fs (K.GetFilenameWithoutExtension fileName ++ toString (u : Int)
        ++ K.GetFilenameExtension fileName) false = true := by
    intro u hu hlt
    have hnot := Nat.find_min hsome hlt
    cases hb : K.FileExists fs (K.GetFilenameWithoutExtension fileName ++ toString (u : Int)
        ++ K.GetFilenameExtension fileName) false with
    | true => rfl
    | false => exact absurd ⟨hu, hb⟩ hnot
  refine ⟨Nat.find hsome, hfind.1, hfind.2, hmin, ?_⟩
  intro fuel hfuel
  have hloop := uniqueFileNameLoop_least K fs (K.GetFilenameWithoutExtension fileName)
    (K.GetFilenameExtension fileName) (Nat.find hsome) hfind.2 (Nat.find hsome - 1) 1 fuel
    (by omega) hmin (by omega)
  have hone : ((1 : Nat) : Int) = 1 := rfl
  rw [hone] at hloop
  refine ⟨hloop, ?_⟩
  unfold dealWithExistingFile
  rw [hname]
  simp only [hexists, if_true, hloop]

/-- Witness for C17 on the sample file system: `/tmp/bundle/Data/vol.nrrd` and
`vol1.nrrd` exist and `vol2.nrrd` does not, so the storage node gets the file
name `vol2.nrrd` when two rounds or more are allowed. -/
theorem C17_unique_file_name_witness :
    sampleStorageNode.FileName = some "/tmp/bundle/Data/vol.nrrd" ∧
    sampleSystemTools.FileExists sampleFS "/tmp/bundle/Data/vol.nrrd" true = true ∧
    (∃ v0 : Nat, 1 ≤ v0 ∧
      ∀ fuel : Nat, v0 ≤ fuel →
        dealWithExistingFile sampleSystemTools sampleFS fuel sampleStorageNode
          = some { sampleStorageNode with
              FileName := some
                (sampleSystemTools.GetFilenameWithoutExtension "/tmp/bundle/Data/vol.nrrd"
                  ++ toString (v0 : Int)
                  ++ sampleSystemTools.GetFilenameExtension "/tmp/bundle/Data/vol.nrrd") }) ∧
    dealWithExistingFile sampleSystemTools sampleFS 2 sampleStorageNode
      = some { sampleStorageNode with FileName := some "vol2.nrrd" } :=
  ⟨rfl, by decide,
   (C17_unique_file_name sampleSystemTools sampleFS sampleStorageNode
      "/tmp/bundle/Data/vol.nrrd" rfl (by decide) ⟨2, by decide, by decide⟩).imp
     (fun _ h => ⟨h.1, fun fuel hfuel => (h.2.2.2 fuel hfuel).2⟩),
   by decide⟩

/-- The block that makes a missing directory: it fails exactly when the
directory does not exist and `MakeDirectory` fails; after a success the
directory exists; what existed before exists afterwards; its only possible call
is `MakeDirectory`. -/
theorem makeMissingDirectory_spec {FS : Type} (K : SystemTools FS)
    (logic : vtkMRMLApplicationLogic FS) (dir : String) :
    ((makeMissingDirectory K logic dir).1 = false ↔
      (K.FileExists logic.FileSystem dir false = false ∧
        (K.MakeDirectory logic.FileSystem dir).1 = false)) ∧
    ((makeMissingDirectory K logic dir).1 = true →
      K.FileExists (makeMissingDirectory K logic dir).2.FileSystem dir false = true) ∧
    (∀ other, K.FileExists logic.FileSystem other false = true →
      K.FileExists (makeMissingDirectory K logic dir).2.FileSystem other false = true) ∧
    ((makeMissingDirectory K logic dir).2.Calls = logic.Calls ∨
      (makeMissingDirectory K logic dir).2.Calls
        = logic.Calls ++ [BundleCall.MakeDirectory dir]) := by
  unfold makeMissingDirectory
  by_cases h : K.FileExists logic.FileSystem dir false = false
  · rw [if_pos h]
    refine ⟨⟨fun h1 => ⟨h, h1⟩, fun h1 => h1.2⟩, ?_, ?_, Or.inr rfl⟩
    · intro h1
      exact K.FileExists_MakeDirectory logic.FileSystem dir h1
    · intro other h1
      exact K.FileExists_MakeDirectory_other logic.FileSystem dir other h1
  · rw [if_neg h]
    have h2 : K.FileExists logic.FileSystem dir false = true := by
      cases hb : K.FileExists logic.FileSystem dir false with
      | true => rfl
      | false => exact absurd hb h
    refine ⟨⟨fun h1 => (by cases h1), fun h1 => absurd h1.1 h⟩, fun _ => h2, fun _ h1 => h1,
      Or.inl rfl⟩

/-- The first part of `SaveSceneToSlicerDataBundleDirectory` for valid input, in
terms of its three blocks. -/
theorem prepareBundleDirectories_valid {FS : Type} (K : SystemTools FS)
    (this : vtkMRMLApplicationLogic FS) (dir : String)
    (hscene : this.MRMLScene ≠ none) (hfull : K.FileIsFullPath dir = true)
    (hdir : K.FileIsDirectory this.FileSystem dir = true) :
    removeExistingDirectory K this dir =
      ((K.RemoveADirectory this.FileSystem dir).1,
       logCall (BundleCall.RemoveADirectory dir)
         { this with FileSystem := (K.RemoveADirectory this.FileSystem dir).2 }) ∧
    prepareBundleDirectories K this (some dir) =
      (if (removeExistingDirectory K this dir).1 = false then
        (none, (removeExistingDirectory K this dir).2)
       else if (makeMissingDirectory K (removeExistingDirectory K this dir).2 dir).1 = false then
        (none, (makeMissingDirectory K (removeExistingDirectory K this dir).2 dir).2)
       else if (makeMissingDirectory K
          (makeMissingDirectory K (removeExistingDirectory K this dir).2 dir).2
          (bundleDataDirectory K dir)).1 = false then
        (none, (makeMissingDirectory K
          (makeMissingDirectory K (removeExistingDirectory K this dir).2 dir).2
          (bundleDataDirectory K dir)).2)
       else
        (some (bundleDataDirectory K dir, newBundleScene K dir),
         (makeMissingDirectory K
          (makeMissingDirectory K (removeExistingDirectory K this dir).2 dir).2
          (bundleDataDirectory K dir)).2)) := by
  constructor
  · unfold removeExistingDirectory
    rw [if_pos (K.FileExists_of_FileIsDirectory this.FileSystem dir hdir)]
  · unfold prepareBundleDirectories
    cases hs : this.MRMLScene with
    | none => exact absurd hs hscene
    | some scene =>
      simp only [hfull, hdir, Bool.true_eq_false, if_false]

/-- C15: for a call that passes input validation (the logic has a scene and
`sdbDir` is a full path naming an existing directory) the removal of `sdbDir`
by `RemoveADirectory` is the first call that changes anything.  The call returns
`NULL` if the removal fails, if `sdbDir` is then missing and cannot be made, or
if its `Data` subdirectory is missing and cannot be made.  Otherwise the loop
over the nodes starts with an empty new scene on a file system in which both
`sdbDir` and its `Data` subdirectory exist, after calls that only remove or
make these directories. -/
theorem C15_save_fresh_directory {FS : Type} (K : SystemTools FS) (M : MRMLCore FS)
    (fuel : Nat) (this : vtkMRMLApplicationLogic FS) (dir : String)
    (screenShot : Option vtkImageData)
    (hscene : this.MRMLScene ≠ none) (hfull : K.FileIsFullPath dir = true)
    (hdir : K.FileIsDirectory this.FileSystem dir = true) :
    removeExistingDirectory K this dir =
      ((K.RemoveADirectory this.FileSystem dir).1,
       logCall (BundleCall.RemoveADirectory dir)
         { this with FileSystem := (K.RemoveADirectory this.FileSystem dir).2 }) ∧
    (∃ rest, (SaveSceneToSlicerDataBundleDirectory K M fuel this (some dir) screenShot).Logic.Calls
      = this.Calls ++ BundleCall.RemoveADirectory dir :: rest) ∧
    ((K.RemoveADirectory this.FileSystem dir).1 = false →
      SaveSceneToSlicerDataBundleDirectory K M fuel this (some dir) screenShot
        = { Returned := some none, Logic := (removeExistingDirectory K this dir).2 }) ∧
    (∀ (logic : vtkMRMLApplicationLogic FS) (d : String),
      (makeMissingDirectory K logic d).1 = false ↔
        (K.FileExists logic.FileSystem d false = false ∧
          (K.MakeDirectory logic.FileSystem d).1 = false)) ∧
    ((K.RemoveADirectory this.FileSystem dir).1 = true →
      (makeMissingDirectory K (removeExistingDirectory K this dir).2 dir).1 = false →
      SaveSceneToSlicerDataBundleDirectory K M fuel this (some dir) screenShot
        = { Returned := some none,
            Logic := (makeMissingDirectory K (removeExistingDirectory K this dir).2 dir).2 }) ∧
    ((K.RemoveADirectory this.FileSystem dir).1 = true →
      (makeMissingDirectory K (removeExistingDirectory K this dir).2 dir).1 = true →
      (makeMissingDirectory K (makeMissingDirectory K (removeExistingDirectory K this dir).2 dir).2 (bundleDataDirectory K dir)).1 = false →
      SaveSceneToSlicerDataBundleDirectory K M fuel this (some dir) screenShot
        = { Returned := some none,
            Logic := (makeMissingDirectory K (makeMissingDirectory K (removeExistingDirectory K this dir).2 dir).2 (bundleDataDirectory K dir)).2 }) ∧
    ((K.RemoveADirectory this.FileSystem dir).1 = true →
      (makeMissingDirectory K (removeExistingDirectory K this dir).2 dir).1 = true →
      (makeMissingDirectory K (makeMissingDirectory K (removeExistingDirectory K this dir).2 dir).2 (bundleDataDirectory K dir)).1 = true →
      prepareBundleDirectories K this (some dir) =
        (some (bundleDataDirectory K dir, newBundleScene K dir),
         (makeMissingDirectory K (makeMissingDirectory K (removeExistingDirectory K this dir).2 dir).2 (bundleDataDirectory K dir)).2) ∧
      (newBundleScene K dir).Nodes = [] ∧
      K.FileExists (makeMissingDirectory K (makeMissingDirectory K (removeExistingDirectory K this dir).2 dir).2 (bundleDataDirectory K dir)).2.FileSystem dir false = true ∧
      K.FileExists (makeMissingDirectory K (makeMissingDirectory K (removeExistingDirectory K this dir).2 dir).2 (bundleDataDirectory K dir)).2.FileSystem (bundleDataDirectory K dir) false = true ∧
      ∃ rest, (makeMissingDirectory K (makeMissingDirectory K (removeExistingDirectory K this dir).2 dir).2 (bundleDataDirectory K dir)).2.Calls
          = this.Calls ++ BundleCall.RemoveADirectory dir :: rest ∧
        ∀ c ∈ rest, c = BundleCall.MakeDirectory dir ∨
          c = BundleCall.MakeDirectory (bundleDataDirectory K dir)) := by
  obtain ⟨hrem, hprep⟩ := prepareBundleDirectories_valid K this dir hscene hfull hdir
  obtain ⟨hnull, _, ⟨rest0, hcalls0⟩⟩ :=
    SaveScene_of_prepare K M fuel this (some dir) screenShot
  have hR1 : (removeExistingDirectory K this dir).1 = (K.RemoveADirectory this.FileSystem dir).1 := by rw [hrem]
  have hRcalls : (removeExistingDirectory K this dir).2.Calls
      = this.Calls ++ [BundleCall.RemoveADirectory dir] := by rw [hrem]; rfl
  obtain ⟨_, hMRexists, _, hMRcalls⟩ := makeMissingDirectory_spec K (removeExistingDirectory K this dir).2 dir
  obtain ⟨_, hMDexists, hMDother, hMDcalls⟩ :=
    makeMissingDirectory_spec K (makeMissingDirectory K (removeExistingDirectory K this dir).2 dir).2 (bundleDataDirectory K dir)
  -- the calls of the first part, in each of its outcomes
  have hprepCalls : ∃ rest, (prepareBundleDirectories K this (some dir)).2.Calls
      = this.Calls ++ BundleCall.RemoveADirectory dir :: rest ∧
      ∀ c ∈ rest, c = BundleCall.MakeDirectory dir ∨
        c = BundleCall.MakeDirectory (bundleDataDirectory K dir) := by
    have hMD2 : ∃ rest, (makeMissingDirectory K (makeMissingDirectory K (removeExistingDirectory K this dir).2 dir).2 (bundleDataDirectory K dir)).2.Calls
        = this.Calls ++ BundleCall.RemoveADirectory dir :: rest ∧
        ∀ c ∈ rest, c = BundleCall.MakeDirectory dir ∨
          c = BundleCall.MakeDirectory (bundleDataDirectory K dir) := by
      rcases hMDcalls with h | h <;> rcases hMRcalls with h2 | h2
      · exact ⟨[], by rw [h, h2, hRcalls], by simp⟩
      · exact ⟨[BundleCall.MakeDirectory dir], by rw [h, h2, hRcalls]; simp, by simp⟩
      · exact ⟨[BundleCall.MakeDirectory (bundleDataDirectory K dir)],
          by rw [h, h2, hRcalls]; simp, by simp⟩
      · exact ⟨[BundleCall.MakeDirectory dir,
            BundleCall.MakeDirectory (bundleDataDirectory K dir)],
          by rw [h, h2, hRcalls]; simp, by simp⟩
    have hMR2 : ∃ rest, (makeMissingDirectory K (removeExistingDirectory K this dir).2 dir).2.Calls
        = this.Calls ++ BundleCall.RemoveADirectory dir :: rest ∧
        ∀ c ∈ rest, c = BundleCall.MakeDirectory dir ∨
          c = BundleCall.MakeDirectory (bundleDataDirectory K dir) := by
      rcases hMRcalls with h2 | h2
      · exact ⟨[], by rw [h2, hRcalls], by simp⟩
      · exact ⟨[BundleCall.MakeDirectory dir], by rw [h2, hRcalls]; simp, by simp⟩
    rw [hprep]
    split_ifs
    · exact ⟨[], by rw [hRcalls], by simp⟩
    · exact hMR2
    · exact hMD2
    · exact hMD2
  refine ⟨hrem, ?_, ?_, fun logic d => (makeMissingDirectory_spec K logic d).1, ?_, ?_, ?_⟩
  · obtain ⟨rest1, h1, _⟩ := hprepCalls
    exact ⟨rest1 ++ rest0, by rw [hcalls0, h1]; simp⟩
  · intro hfail
    have hp : prepareBundleDirectories K this (some dir) = (none, (removeExistingDirectory K this dir).2) := by
      rw [hprep, if_pos (hR1.trans hfail)]
    have h := hnull (by rw [hp])
    rw [h, hp]
  · intro hok hfail
    have hne : ¬ (removeExistingDirectory K this dir).1 = false := by rw [hR1, hok]; simp
    have hp : prepareBundleDirectories K this (some dir) = (none, (makeMissingDirectory K (removeExistingDirectory K this dir).2 dir).2) := by
      rw [hprep, if_neg hne, if_pos hfail]
    have h := hnull (by rw [hp])
    rw [h, hp]
  · intro hok hroot hfail
    have hne : ¬ (removeExistingDirectory K this dir).1 = false := by rw [hR1, hok]; simp
    have hne2 : ¬ (makeMissingDirectory K (removeExistingDirectory K this dir).2 dir).1 = false := by rw [hroot]; simp
    have hp : prepareBundleDirectories K this (some dir) = (none, (makeMissingDirectory K (makeMissingDirectory K (removeExistingDirectory K this dir).2 dir).2 (bundleDataDirectory K dir)).2) := by
      rw [hprep, if_neg hne, if_neg hne2, if_pos hfail]
    have h := hnull (by rw [hp])
    rw [h, hp]
  · intro hok hroot hdata
    have hne : ¬ (removeExistingDirectory K this dir).1 = false := by rw [hR1, hok]; simp
    have hne2 : ¬ (makeMissingDirectory K (removeExistingDirectory K this dir).2 dir).1 = false := by rw [hroot]; simp
    have hne3 : ¬ (makeMissingDirectory K (makeMissingDirectory K (removeExistingDirectory K this dir).2 dir).2 (bundleDataDirectory K dir)).1 = false := by rw [hdata]; simp
    have hp : prepareBundleDirectories K this (some dir) =
        (some (bundleDataDirectory K dir, newBundleScene K dir), (makeMissingDirectory K (makeMissingDirectory K (removeExistingDirectory K this dir).2 dir).2 (bundleDataDirectory K dir)).2) := by
      rw [hprep, if_neg hne, if_neg hne2, if_neg hne3]
    refine ⟨hp, rfl, hMDother dir (hMRexists hroot), hMDexists hdata, ?_⟩
    rw [hp] at hprepCalls
    exact hprepCalls

/-- Witness for C15 on the sample file system: for `/tmp/bundle` the three
blocks succeed, and for the locked directory `/locked` the removal fails and
`NULL` is returned after the one call. -/
theorem C15_save_fresh_directory_witness :
    sampleLogic.MRMLScene ≠ none ∧
    sampleSystemTools.FileIsFullPath "/tmp/bundle" = true ∧
    sampleSystemTools.FileIsDirectory sampleLogic.FileSystem "/tmp/bundle" = true ∧
    (prepareBundleDirectories sampleSystemTools sampleLogic (some "/tmp/bundle")).1
      = some ("/tmp/bundle/Data",
          { URL := "/tmp/bundle/bundle.mrml", RootDirectory := "/tmp/bundle", Nodes := [] }) ∧
    (SaveSceneToSlicerDataBundleDirectory sampleSystemTools sampleMRML 10 sampleLogic
      (some "/locked") none).Returned = some none ∧
    (SaveSceneToSlicerDataBundleDirectory sampleSystemTools sampleMRML 10 sampleLogic
      (some "/locked") none).Logic.Calls = [BundleCall.RemoveADirectory "/locked"] :=
  ⟨by decide, by decide, by decide,
   (congrArg Prod.fst
     ((C15_save_fresh_directory sampleSystemTools sampleMRML 10 sampleLogic "/tmp/bundle" none
       (by decide) (by decide) (by decide)).2.2.2.2.2.2
         (by decide) (by decide) (by decide)).1).trans (by decide),
   (congrArg BundleResult.Returned
     ((C15_save_fresh_directory sampleSystemTools sampleMRML 10 sampleLogic "/locked" none
       (by decide) (by decide) (by decide)).2.2.1 (by decide))).trans rfl,
   (congrArg (fun r => r.Logic.Calls)
     ((C15_save_fresh_directory sampleSystemTools sampleMRML 10 sampleLogic "/locked" none
       (by decide) (by decide) (by decide)).2.2.1 (by decide))).trans (by decide)⟩

end Slicer
